import Mathlib

/-!
Verification development for the Anonca-Marche-HIS clinical triage and
emergency-dispatch core.

The Python sources `backend/PYTHON/ai_triage.py` and
`backend/PYTHON/emergency_integration.py` are shallowly embedded below:

* Python floats are modelled as exact rationals (`ℚ`);
* Python `round(x, 1)` / `round(x)` (banker's rounding, round-half-to-even)
  is modelled by `pyRound1` / `pyRound`; Python `min`/`max` of two numbers
  by `pymin`/`pymax`;
* Python dicts with string keys are modelled as association lists in
  insertion order (`List (String × _)`): `dict.get k d` is first-match
  lookup with default (`pyGet`), matching CPython's ordered-dict semantics;
* the `numpy` round trip in `_predict_risk` (`np.array(...).reshape(1, -1)`
  fed to the simulated model) is modelled faithfully by `PyVal`, which
  distinguishes Python scalars from 1-D numpy arrays: builtin `sum` over the
  `(1, n)` array iterates its rows and broadcasts, `len` is the row count 1,
  so the value reaching `round(_, 1)` is a `(n,)` array, and builtin `round`
  on a `numpy.ndarray` (which defines no `__round__`) raises `TypeError` —
  on every call; `perform_triage` therefore returns
  `Except String TriageSession` and always propagates that error;
* the mutable `EmergencyService` object state becomes an explicit `EmState`
  threaded through the operations; `uuid4()` / `datetime.now()` values are
  taken as explicit arguments (they are data, not logic);
* `raise Exception(...)` becomes `Except.error`;
* the great-circle `_calculate_distance` (haversine over `math.sin`,
  `math.cos`, `math.atan2`, `math.sqrt`) is modelled over the reals by
  `haversineDist`; the dispatch operations are parametrised by the distance
  function (with `haversineDist` the faithful instance) so that selection
  behaviour can also be exercised on computable instances.
-/

/-- Python `round(x)`: round half to even, returning an integer. -/
def pyRound {α : Type} [LinearOrderedField α] [FloorRing α] (x : α) : ℤ :=
  if x - (⌊x⌋ : α) < 1/2 then ⌊x⌋
  else if (1/2 : α) < x - (⌊x⌋ : α) then ⌊x⌋ + 1
  else if ⌊x⌋ % 2 = 0 then ⌊x⌋ else ⌊x⌋ + 1

/-- Python `round(x, 1)`: round half to even at one decimal digit. -/
def pyRound1 {α : Type} [LinearOrderedField α] [FloorRing α] (x : α) : α :=
  ((pyRound (10 * x) : ℤ) : α) / 10

/-- Python `min(a, b)` on numbers. -/
def pymin {α : Type} [LinearOrder α] (a b : α) : α := if a ≤ b then a else b

/-- Python `max(a, b)` on numbers. -/
def pymax {α : Type} [LinearOrder α] (a b : α) : α := if b ≤ a then a else b

/-- Python `d.get(k, default)` on a string-keyed dict (first match wins). -/
def pyGet {β : Type} (l : List (String × β)) (k : String) (d : β) : β :=
  match l with
  | [] => d
  | (k₁, v) :: rest => if k₁ = k then v else pyGet rest k d

/-- Python `d.get(k)` / `d[k]` membership-aware lookup (first match wins). -/
def pyFind {β : Type} (l : List (String × β)) (k : String) : Option β :=
  match l with
  | [] => none
  | (k₁, v) :: rest => if k₁ = k then some v else pyFind rest k

theorem pyGet_eq_of_find_some {β : Type} {l : List (String × β)} {k : String}
    {x : β} (h : pyFind l k = some x) (d : β) : pyGet l k d = x := by
  induction l with
  | nil => simp [pyFind] at h
  | cons hd tl ih =>
    obtain ⟨k₁, v⟩ := hd
    by_cases hk : k₁ = k
    · simp [pyFind, hk] at h
      simp [pyGet, hk, h]
    · simp [pyFind, hk] at h
      simp [pyGet, hk, ih h]

theorem pyGet_eq_default_of_find_none {β : Type} {l : List (String × β)}
    {k : String} (h : pyFind l k = none) (d : β) : pyGet l k d = d := by
  induction l with
  | nil => simp [pyGet]
  | cons hd tl ih =>
    obtain ⟨k₁, v⟩ := hd
    by_cases hk : k₁ = k
    · simp [pyFind, hk] at h
    · simp [pyFind, hk] at h
      simp [pyGet, hk, ih h]

theorem pyFind_isSome_ne_nil {β : Type} {l : List (String × β)} {k : String}
    {x : β} (h : pyFind l k = some x) : l ≠ [] := by
  intro hnil
  rw [hnil] at h
  simp [pyFind] at h

theorem floor_le_pyRound {α : Type} [LinearOrderedField α] [FloorRing α] (x : α) :
    ⌊x⌋ ≤ pyRound x := by
  unfold pyRound
  split_ifs <;> omega

theorem pyRound_le_floor_add_one {α : Type} [LinearOrderedField α] [FloorRing α] (x : α) :
    pyRound x ≤ ⌊x⌋ + 1 := by
  unfold pyRound
  split_ifs <;> omega

theorem pyRound_mono {α : Type} [LinearOrderedField α] [FloorRing α] {x y : α}
    (h : x ≤ y) : pyRound x ≤ pyRound y := by
  rcases lt_or_eq_of_le (Int.floor_le_floor h) with hf | hf
  · calc pyRound x ≤ ⌊x⌋ + 1 := pyRound_le_floor_add_one x
    _ ≤ ⌊y⌋ := by omega
    _ ≤ pyRound y := floor_le_pyRound y
  · have hx : x - (⌊x⌋ : α) ≤ y - (⌊y⌋ : α) := by
      rw [← hf]; linarith
    unfold pyRound
    rw [← hf]
    split_ifs <;> first | omega | linarith

theorem pyRound_intCast {α : Type} [LinearOrderedField α] [FloorRing α] (n : ℤ) :
    pyRound (n : α) = n := by
  unfold pyRound
  have h1 : ⌊(n : α)⌋ = n := Int.floor_intCast n
  rw [h1]
  have h2 : (n : α) - (n : α) = 0 := by ring
  rw [h2]
  norm_num

theorem pyRound1_mono {α : Type} [LinearOrderedField α] [FloorRing α] {x y : α}
    (h : x ≤ y) : pyRound1 x ≤ pyRound1 y := by
  unfold pyRound1
  have h10 : (10 : α) * x ≤ 10 * y := by linarith
  have hr := pyRound_mono h10
  have hc : ((pyRound (10 * x) : ℤ) : α) ≤ ((pyRound (10 * y) : ℤ) : α) := by
    exact_mod_cast hr
  linarith

theorem pyRound1_zero {α : Type} [LinearOrderedField α] [FloorRing α] :
    pyRound1 (0 : α) = 0 := by
  unfold pyRound1
  have h : (10 : α) * 0 = ((0 : ℤ) : α) := by norm_num
  rw [h, pyRound_intCast]
  norm_num

theorem pyRound1_hundred {α : Type} [LinearOrderedField α] [FloorRing α] :
    pyRound1 (100 : α) = 100 := by
  unfold pyRound1
  have h : (10 : α) * 100 = ((1000 : ℤ) : α) := by norm_num
  rw [h, pyRound_intCast]
  norm_num

theorem pyRound1_nonneg {α : Type} [LinearOrderedField α] [FloorRing α] {x : α}
    (h : 0 ≤ x) : 0 ≤ pyRound1 x := by
  have hm := pyRound1_mono h
  rwa [pyRound1_zero] at hm

theorem pyRound1_le_hundred {α : Type} [LinearOrderedField α] [FloorRing α] {x : α}
    (h : x ≤ 100) : pyRound1 x ≤ 100 := by
  have hm := pyRound1_mono h
  rwa [pyRound1_hundred] at hm

theorem pymin_le_left {α : Type} [LinearOrder α] (a b : α) : pymin a b ≤ a := by
  unfold pymin
  split_ifs with h
  · exact le_refl a
  · exact le_of_not_le h

theorem pymin_le_right {α : Type} [LinearOrder α] (a b : α) : pymin a b ≤ b := by
  unfold pymin
  split_ifs with h
  · exact h
  · exact le_refl b

theorem le_pymin {α : Type} [LinearOrder α] {a b c : α} (h1 : c ≤ a) (h2 : c ≤ b) :
    c ≤ pymin a b := by
  unfold pymin
  split_ifs <;> assumption

theorem pymin_mono_left {α : Type} [LinearOrder α] {a b c : α} (h : a ≤ b) :
    pymin a c ≤ pymin b c := by
  unfold pymin
  split_ifs with h1 h2 h2
  · exact h
  · exact h1
  · exact absurd (h.trans h2) h1
  · exact le_refl c

theorem pymax_le {α : Type} [LinearOrder α] {a b c : α} (h1 : a ≤ c) (h2 : b ≤ c) :
    pymax a b ≤ c := by
  unfold pymax
  split_ifs <;> assumption

theorem le_pymax_left {α : Type} [LinearOrder α] (a b : α) : a ≤ pymax a b := by
  unfold pymax
  split_ifs with h
  · exact le_refl a
  · exact le_of_not_le h

namespace AITriage

/-- `symptom_risk` table from `AITriageSystem.__init__` (insertion order). -/
def symptom_risk : List (String × ℚ) :=
  [("chest_pain", 95), ("difficulty_breathing", 90), ("severe_headache", 75),
   ("loss_of_consciousness", 100), ("seizure", 95), ("severe_bleeding", 95),
   ("abdominal_pain", 50), ("fever", 40), ("cough", 30), ("fatigue", 20),
   ("nausea", 25), ("vomiting", 35), ("dizziness", 45), ("palpitations", 60)]

/-- `top_symptoms = list(self.symptom_risk.keys())[:10]` in `_extract_features`. -/
def top_symptoms : List String := (symptom_risk.map Prod.fst).take 10

/-- `critical_symptoms` from `_determine_triage_level`. -/
def critical_symptoms : List String :=
  ["loss_of_consciousness", "seizure", "severe_bleeding"]

/-- `risk_factors` from `_extract_features`. -/
def risk_factors : List String :=
  ["diabetes", "hypertension", "heart_disease", "copd", "cancer"]

/-- Vital signs: a Python dict `str -> float` in insertion order. -/
abbrev Vitals := List (String × ℚ)

/-- `vital_signs.get(k, d)`. -/
def vget (v : Vitals) (k : String) (d : ℚ) : ℚ := pyGet v k d

/-- ASCII single-quote character, for Python `str` rendering of lists. -/
def quoteChar : Char := Char.ofNat 39

/-- Python `str` representation of a list of strings, as used by
`str(medical_history)` in `_extract_features`. -/
def pyStrList (h : List String) : String :=
  "[" ++ String.intercalate ", "
    (h.map (fun x => String.singleton quoteChar ++ x ++ String.singleton quoteChar)) ++ "]"

/-- Python `needle in hay` substring test. -/
def containsSub (needle hay : String) : Bool :=
  decide (needle.toList <:+: hay.toList)

/-- `AITriageSystem._extract_features`: 10 one-hot symptom slots, 4 normalized
vital slots (with defaults HR=70, SBP=120, SpO2=98, Temp=36.5), and 5 history
risk-factor slots (all zero when the history is `None` or the empty list,
which are both falsy in Python). -/
def extract_features (symptoms : List String) (vital_signs : Vitals)
    (medical_history : Option (List String)) : List ℚ :=
  (top_symptoms.map (fun s => if s ∈ symptoms then (1 : ℚ) else 0))
  ++ [vget vital_signs "heart_rate" 70 / 200,
      vget vital_signs "blood_pressure_systolic" 120 / 200,
      vget vital_signs "oxygen_saturation" 98 / 100,
      vget vital_signs "temperature" 36.5 / 40]
  ++ (match medical_history with
      | some h =>
          if h.isEmpty then List.replicate 5 (0 : ℚ)
          else risk_factors.map
            (fun f => if containsSub f (pyStrList h).toLower then (1 : ℚ) else 0)
      | none => List.replicate 5 (0 : ℚ))

/-- A Python value flowing through `_predict_risk`: `np.array(features)
.reshape(1, -1)` turns the flat feature list into a `(1, n)` numpy array, and
the arithmetic inside `SimulatedModel.predict_proba` then happens on whole
numpy arrays, so Python scalars and 1-D arrays must be distinguished. -/
inductive PyVal where
  | scalar (q : ℚ)
  | arr (v : List ℚ)
deriving DecidableEq

/-- Python builtin `sum` over a 2-D numpy array: it iterates the rows of the
array starting from the int `0`, and both `int + ndarray` and
`ndarray + ndarray` broadcast elementwise, so the running value becomes (and
stays) a 1-D array. -/
def npSumRows (rows : List (List ℚ)) : PyVal :=
  rows.foldl
    (fun acc row =>
      match acc with
      | PyVal.scalar q => PyVal.arr (row.map (fun x => q + x))
      | PyVal.arr v => PyVal.arr (List.zipWith (fun a b => a + b) v row))
    (PyVal.scalar 0)

/-- Broadcast division of a Python value by a scalar. -/
def pyvalDiv (v : PyVal) (c : ℚ) : PyVal :=
  match v with
  | PyVal.scalar q => PyVal.scalar (q / c)
  | PyVal.arr w => PyVal.arr (w.map (fun x => x / c))

/-- Broadcast multiplication of a Python value by a scalar. -/
def pyvalMul (v : PyVal) (c : ℚ) : PyVal :=
  match v with
  | PyVal.scalar q => PyVal.scalar (q * c)
  | PyVal.arr w => PyVal.arr (w.map (fun x => x * c))

/-- Python builtin `round(x, 1)`: defined on scalars; `numpy.ndarray` defines
no `__round__` method, so `round` applied to an array raises `TypeError`. -/
def pyRoundVal1 (v : PyVal) : Except String ℚ :=
  match v with
  | PyVal.scalar q => Except.ok (pyRound1 q)
  | PyVal.arr _ =>
    Except.error "TypeError: type numpy.ndarray does not define __round__ method"

/-- `SimulatedModel.predict_proba` (from `_load_model`), as called on the
reshaped `(1, n)` array: `sum(features)` iterates the single row, so
`risk_score` is the `(n,)` row itself divided by `len(features) = 1`, and the
returned nested list holds that array divided by 100. -/
def predict_proba (features : List (List ℚ)) : List (List PyVal) :=
  let risk_score := pyvalDiv (npSumRows features) ((features.length : ℚ))
  [[pyvalDiv risk_score 100]]

/-- `AITriageSystem._predict_risk`: reshapes the feature list to a `(1, n)`
array, takes the model output at `[0][0]` (a `(n,)` array), multiplies by 100
(still an array) and applies `round(·, 1)`, which raises `TypeError` on an
ndarray.  The `[0][0]` indexing is modelled by `headD`; it is total here
because `predict_proba` returns the singleton nested list `[[·]]`. -/
def predict_risk (features : List ℚ) : Except String ℚ :=
  let features_array : List (List ℚ) := [features]
  let risk_score :=
    pyvalMul (((predict_proba features_array).headD []).headD (PyVal.scalar 0))
      100
  pyRoundVal1 risk_score

/-- `AITriageSystem._determine_triage_level`.  The vital-sign checks run only
on a non-empty (truthy) dict and use `get` defaults SpO2=100, HR=0, SBP=0. -/
def determine_triage_level (risk_score : ℚ) (vital_signs : Vitals)
    (symptoms : List String) : String :=
  if ∃ s ∈ symptoms, s ∈ critical_symptoms then "CODICE_ROSSO"
  else if vital_signs ≠ [] ∧ vget vital_signs "oxygen_saturation" 100 < 85 then
    "CODICE_ROSSO"
  else if vital_signs ≠ [] ∧
      (140 < vget vital_signs "heart_rate" 0 ∨ vget vital_signs "heart_rate" 0 < 40) then
    "CODICE_ROSSO"
  else if vital_signs ≠ [] ∧
      (200 < vget vital_signs "blood_pressure_systolic" 0 ∨
        vget vital_signs "blood_pressure_systolic" 0 < 80) then
    "CODICE_ROSSO"
  else if 80 ≤ risk_score then "CODICE_ROSSO"
  else if 60 ≤ risk_score then "CODICE_GIALLO"
  else if 30 ≤ risk_score then "CODICE_VERDE"
  else "CODICE_BIANCO"

/-- The final risk-score bucketing of `_determine_triage_level` in isolation. -/
def risk_bucket (r : ℚ) : String :=
  if 80 ≤ r then "CODICE_ROSSO"
  else if 60 ≤ r then "CODICE_GIALLO"
  else if 30 ≤ r then "CODICE_VERDE"
  else "CODICE_BIANCO"

/-- Per-level data of the `triage_levels` table. -/
structure LevelInfo where
  priority : ℕ
  max_wait : ℕ
  color : String
  description : String
deriving DecidableEq

/-- `self.triage_levels` from `AITriageSystem.__init__`. -/
def triage_levels : List (String × LevelInfo) :=
  [("CODICE_ROSSO", ⟨1, 0, "#ff0000", "Emergenza - Pericolo di vita immediato"⟩),
   ("CODICE_GIALLO", ⟨2, 15, "#ffff00", "Urgenza - Potenziale pericolo di vita"⟩),
   ("CODICE_VERDE", ⟨3, 60, "#00ff00", "Urgenza minore - Non pericolo di vita"⟩),
   ("CODICE_BIANCO", ⟨4, 240, "#ffffff", "Non urgente - Visita ambulatoriale"⟩)]

/-- Priority of a triage level per the `triage_levels` table. -/
def priority_of (lvl : String) : ℕ :=
  match pyFind triage_levels lvl with
  | some info => info.priority
  | none => 0

/-- `AITriageSystem._generate_recommendations` (emoji prefixes of the source
strings dropped; they are mojibake bytes in the repository). -/
def generate_recommendations (triage_level : String) (symptoms : List String)
    (vital_signs : Vitals) (medical_history : Option (List String)) : List String :=
  let level_recs : List (String × List String) :=
    [("CODICE_ROSSO",
      ["Attivare immediatamente codice emergenza",
       "Chiamare 118 per trasporto urgente",
       "Monitoraggio continuo parametri vitali",
       "Preparare materiale per rianimazione"]),
     ("CODICE_GIALLO",
      ["Trasporto in Pronto Soccorso entro 15 minuti",
       "Monitoraggio parametri ogni 5 minuti",
       "Contattare medico di base per riferimento"]),
     ("CODICE_VERDE",
      ["Visita ambulatoriale entro 60 minuti",
       "Controllare parametri vitali ogni 30 minuti",
       "Considerare terapia sintomatica"]),
     ("CODICE_BIANCO",
      ["Visita ambulatoriale programmabile",
       "Consigliare terapia domiciliare",
       "Fornire istruzioni per monitoraggio"])]
  (pyGet level_recs triage_level [])
  ++ (if "chest_pain" ∈ symptoms then
        ["Eseguire ECG appena possibile",
         "Considerare aspirina se non controindicata"] else [])
  ++ (if "difficulty_breathing" ∈ symptoms then
        ["Somministrare ossigeno se saturazione < 94%",
         "Posizione semi-seduta"] else [])
  ++ (if "fever" ∈ symptoms ∧ 38.5 < vget vital_signs "temperature" 0 then
        ["Somministrare antipiretico",
         "Controllare temperatura ogni 4 ore"] else [])
  ++ (match medical_history with
      | some h =>
          (if !h.isEmpty && containsSub "diabetes" (pyStrList h).toLower then
            ["Controllare glicemia"] else [])
          ++ (if !h.isEmpty && containsSub "hypertension" (pyStrList h).toLower then
            ["Monitorare pressione arteriosa"] else [])
      | none => [])

/-- `AITriageSystem._calculate_confidence`.  All modelled vital values are
non-`None`, so the non-`None` count is the dict size. -/
def calculate_confidence (symptoms : List String) (vital_signs : Vitals) : ℚ :=
  let confidence : ℚ := 0.7 + pymin ((symptoms.length : ℚ) * 0.05) 0.15
  let confidence :=
    if vital_signs ≠ [] then confidence + (vital_signs.length : ℚ) * 0.03
    else confidence
  pymin confidence 0.95

/-- The record returned by `perform_triage` (the in-memory session log append
is elided: it never affects a later result). -/
structure TriageSession where
  session_id : String
  patient_id : String
  timestamp : String
  triage_level : String
  triage_details : Option LevelInfo
  risk_score : ℚ
  symptoms_analyzed : List String
  vital_signs : Vitals
  recommendations : List String
  confidence : ℚ
  requires_immediate_action : Bool
deriving DecidableEq

/-- `AITriageSystem.perform_triage`.  The generated `uuid4()` session id and
`datetime.now()` timestamp are taken as arguments.  The method has no
`try`/`except`, so the `TypeError` raised inside `_predict_risk` propagates
out of every invocation and the construction of the result dict below the
`_predict_risk` call is dead code. -/
def perform_triage (session_id patient_id timestamp : String)
    (symptoms : List String) (vital_signs : Vitals)
    (medical_history : Option (List String)) : Except String TriageSession :=
  let features := extract_features symptoms vital_signs medical_history
  match predict_risk features with
  | Except.error e => Except.error e
  | Except.ok risk_score =>
    let triage_level := determine_triage_level risk_score vital_signs symptoms
    Except.ok
      { session_id := session_id
        patient_id := patient_id
        timestamp := timestamp
        triage_level := triage_level
        triage_details := pyFind triage_levels triage_level
        risk_score := risk_score
        symptoms_analyzed := symptoms
        vital_signs := vital_signs
        recommendations :=
          generate_recommendations triage_level symptoms vital_signs medical_history
        confidence := calculate_confidence symptoms vital_signs
        requires_immediate_action :=
          if triage_level = "CODICE_ROSSO" ∨ triage_level = "CODICE_GIALLO" then
            true
          else false }


theorem vget_eq_of_find_some {v : Vitals} {k : String} {x : ℚ}
    (h : pyFind v k = some x) (d : ℚ) : vget v k d = x :=
  pyGet_eq_of_find_some h d

theorem vget_eq_default_of_find_none {v : Vitals} {k : String}
    (h : pyFind v k = none) (d : ℚ) : vget v k d = d :=
  pyGet_eq_default_of_find_none h d

theorem vget_bound {v : Vitals} {lo hi : ℚ} (k : String) {d : ℚ}
    (hd : lo ≤ d ∧ d ≤ hi) (hv : ∀ p ∈ v, lo ≤ p.2 ∧ p.2 ≤ hi) :
    lo ≤ vget v k d ∧ vget v k d ≤ hi := by
  induction v with
  | nil => exact hd
  | cons hd' tl ih =>
    obtain ⟨k₁, x⟩ := hd'
    show lo ≤ pyGet ((k₁, x) :: tl) k d ∧ pyGet ((k₁, x) :: tl) k d ≤ hi
    unfold pyGet
    split_ifs with hk
    · exact hv (k₁, x) (List.mem_cons_self _ _)
    · exact ih (fun p hp => hv p (List.mem_cons_of_mem _ hp))

theorem predict_risk_eq_error (features : List ℚ) :
    predict_risk features
      = Except.error
        "TypeError: type numpy.ndarray does not define __round__ method" := rfl

theorem perform_triage_eq_error (session_id patient_id timestamp : String)
    (symptoms : List String) (vital_signs : Vitals)
    (medical_history : Option (List String)) :
    perform_triage session_id patient_id timestamp symptoms vital_signs
        medical_history
      = Except.error
        "TypeError: type numpy.ndarray does not define __round__ method" := rfl

/-- C2 (code bug): whenever the symptom list contains
`loss_of_consciousness`, `seizure` or `severe_bleeding`,
`_determine_triage_level` would answer `CODICE_ROSSO` for every risk score
and every vital-signs dict — but `perform_triage` never reaches it: the
`TypeError` raised by `round(ndarray, 1)` inside `_predict_risk` propagates
first, so the claimed `CODICE_ROSSO` assignment never happens on any call. -/
theorem critical_symptoms_red_unreachable (session_id patient_id timestamp : String)
    (symptoms : List String) (vital_signs : Vitals)
    (medical_history : Option (List String)) (risk_score : ℚ)
    (h : ∃ s ∈ symptoms, s ∈ critical_symptoms) :
    determine_triage_level risk_score vital_signs symptoms = "CODICE_ROSSO" ∧
    perform_triage session_id patient_id timestamp symptoms vital_signs
        medical_history
      = Except.error
        "TypeError: type numpy.ndarray does not define __round__ method" := by
  have hd : determine_triage_level risk_score vital_signs symptoms = "CODICE_ROSSO" := by
    unfold determine_triage_level
    rw [if_pos h]
  exact ⟨hd, perform_triage_eq_error session_id patient_id timestamp symptoms
    vital_signs medical_history⟩

theorem critical_symptoms_red_unreachable_check :
    (∃ s ∈ ["seizure", "cough"], s ∈ critical_symptoms) ∧
    determine_triage_level 55 [("heart_rate", 72)] ["seizure", "cough"]
      = "CODICE_ROSSO" ∧
    perform_triage "sid" "pid" "t0" ["seizure", "cough"] [("heart_rate", 72)]
        none
      = Except.error
        "TypeError: type numpy.ndarray does not define __round__ method" :=
  ⟨by simp [critical_symptoms],
   critical_symptoms_red_unreachable "sid" "pid" "t0" ["seizure", "cough"]
     [("heart_rate", 72)] none 55 (by simp [critical_symptoms])⟩

/-- A vital-signs dict containing a hard-threshold breach: SpO2 below 85,
heart rate above 140 or below 40, or systolic blood pressure above 200 or
below 80. -/
def vital_hard_breach (v : Vitals) : Prop :=
  (∃ x, pyFind v "oxygen_saturation" = some x ∧ x < 85) ∨
  (∃ x, pyFind v "heart_rate" = some x ∧ (140 < x ∨ x < 40)) ∨
  (∃ x, pyFind v "blood_pressure_systolic" = some x ∧ (200 < x ∨ x < 80))

/-- C3 (code bug): whenever the vital-signs dict contains a hard-threshold
breach, `_determine_triage_level` would answer `CODICE_ROSSO` for every risk
score — but `perform_triage` raises the `TypeError` from `_predict_risk`
before that check runs, so the claimed `CODICE_ROSSO` assignment never
happens on any call. -/
theorem vital_breach_red_unreachable (session_id patient_id timestamp : String)
    (symptoms : List String) (vital_signs : Vitals)
    (medical_history : Option (List String)) (risk_score : ℚ)
    (hb : vital_hard_breach vital_signs) :
    determine_triage_level risk_score vital_signs symptoms = "CODICE_ROSSO" ∧
    perform_triage session_id patient_id timestamp symptoms vital_signs
        medical_history
      = Except.error
        "TypeError: type numpy.ndarray does not define __round__ method" := by
  have hd : ∀ r : ℚ, determine_triage_level r vital_signs symptoms = "CODICE_ROSSO" := by
    intro r
    unfold determine_triage_level
    split_ifs with h1 h2 h3 h4 h5 h6 h7 <;> try rfl
    all_goals {
      exfalso
      rcases hb with ⟨x, hf, hx⟩ | ⟨x, hf, hx⟩ | ⟨x, hf, hx⟩
      · exact h2 ⟨pyFind_isSome_ne_nil hf, by rw [vget_eq_of_find_some hf]; exact hx⟩
      · exact h3 ⟨pyFind_isSome_ne_nil hf, by rw [vget_eq_of_find_some hf]; exact hx⟩
      · exact h4 ⟨pyFind_isSome_ne_nil hf, by rw [vget_eq_of_find_some hf]; exact hx⟩ }
  exact ⟨hd risk_score, perform_triage_eq_error session_id patient_id timestamp
    symptoms vital_signs medical_history⟩

theorem vital_breach_red_unreachable_check :
    vital_hard_breach [("oxygen_saturation", 92), ("heart_rate", 150)] ∧
    determine_triage_level 5 [("oxygen_saturation", 92), ("heart_rate", 150)] []
      = "CODICE_ROSSO" ∧
    perform_triage "sid" "pid" "t0" []
        [("oxygen_saturation", 92), ("heart_rate", 150)] none
      = Except.error
        "TypeError: type numpy.ndarray does not define __round__ method" :=
  ⟨Or.inr (Or.inl ⟨150, by simp [pyFind], by norm_num⟩),
   vital_breach_red_unreachable "sid" "pid" "t0" []
     [("oxygen_saturation", 92), ("heart_rate", 150)] none 5
     (Or.inr (Or.inl ⟨150, by simp [pyFind], by norm_num⟩))⟩

/-- Every measurement actually present in the vital-signs dict is inside its
normal (non-alarming) range. -/
def present_vitals_normal (v : Vitals) : Prop :=
  (∀ x, pyFind v "oxygen_saturation" = some x → 85 ≤ x ∧ x ≤ 100) ∧
  (∀ x, pyFind v "heart_rate" = some x → 40 ≤ x ∧ x ≤ 140) ∧
  (∀ x, pyFind v "blood_pressure_systolic" = some x → 80 ≤ x ∧ x ≤ 200) ∧
  (∀ x, pyFind v "temperature" = some x → 36 ≤ x ∧ x ≤ 38)

/-- C10 (code bug): on a non-empty vital-signs dict missing the `heart_rate`
key (or the `blood_pressure_systolic` key), `_determine_triage_level` really
does substitute 0 for the missing measurement (not the feature-extraction
defaults HR=70, SBP=120) and would answer `CODICE_ROSSO` even though every
measurement actually present is normal — but the claimed `perform_triage`
outcome never occurs: the call raises the `TypeError` from `_predict_risk`
before the threshold check runs. -/
theorem missing_vital_zero_default_unreachable (session_id patient_id timestamp : String)
    (symptoms : List String) (vital_signs : Vitals)
    (medical_history : Option (List String)) (risk_score : ℚ)
    (hne : vital_signs ≠ [])
    (hnorm : present_vitals_normal vital_signs)
    (hmiss : pyFind vital_signs "heart_rate" = none ∨
      pyFind vital_signs "blood_pressure_systolic" = none) :
    determine_triage_level risk_score vital_signs symptoms = "CODICE_ROSSO" ∧
    perform_triage session_id patient_id timestamp symptoms vital_signs
        medical_history
      = Except.error
        "TypeError: type numpy.ndarray does not define __round__ method" := by
  have hd : ∀ r : ℚ, determine_triage_level r vital_signs symptoms = "CODICE_ROSSO" := by
    intro r
    unfold determine_triage_level
    split_ifs with h1 h2 h3 h4 h5 h6 h7 <;> try rfl
    all_goals {
      exfalso
      rcases hmiss with hm | hm
      · exact h3 ⟨hne, Or.inr (by rw [vget_eq_default_of_find_none hm]; norm_num)⟩
      · rcases hh : pyFind vital_signs "heart_rate" with _ | y
        · exact h3 ⟨hne, Or.inr (by rw [vget_eq_default_of_find_none hh]; norm_num)⟩
        · exact h4 ⟨hne, Or.inr (by rw [vget_eq_default_of_find_none hm]; norm_num)⟩ }
  exact ⟨hd risk_score, perform_triage_eq_error session_id patient_id timestamp
    symptoms vital_signs medical_history⟩

theorem missing_vital_zero_default_unreachable_check :
    ([("oxygen_saturation", (97 : ℚ)), ("temperature", 36.6)] ≠ ([] : Vitals)) ∧
    present_vitals_normal [("oxygen_saturation", 97), ("temperature", 36.6)] ∧
    (pyFind [("oxygen_saturation", (97 : ℚ)), ("temperature", 36.6)] "heart_rate" = none ∨
      pyFind [("oxygen_saturation", (97 : ℚ)), ("temperature", 36.6)]
        "blood_pressure_systolic" = none) ∧
    determine_triage_level 2 [("oxygen_saturation", 97), ("temperature", 36.6)] []
      = "CODICE_ROSSO" ∧
    perform_triage "sid" "pid" "t0" []
        [("oxygen_saturation", 97), ("temperature", 36.6)] none
      = Except.error
        "TypeError: type numpy.ndarray does not define __round__ method" := by
  have hne : [("oxygen_saturation", (97 : ℚ)), ("temperature", 36.6)] ≠ ([] : Vitals) := by
    simp
  have hnorm : present_vitals_normal [("oxygen_saturation", 97), ("temperature", 36.6)] := by
    refine ⟨?_, ?_, ?_, ?_⟩ <;> intro x hx <;> simp [pyFind] at hx <;>
      rw [← hx] <;> norm_num
  have hmiss : pyFind [("oxygen_saturation", (97 : ℚ)), ("temperature", 36.6)]
      "heart_rate" = none ∨
      pyFind [("oxygen_saturation", (97 : ℚ)), ("temperature", 36.6)]
        "blood_pressure_systolic" = none := by
    left
    simp [pyFind]
  exact ⟨hne, hnorm, hmiss,
    missing_vital_zero_default_unreachable "sid" "pid" "t0" []
      [("oxygen_saturation", 97), ("temperature", 36.6)] none 2 hne hnorm hmiss⟩

/-- No symptom of the list belongs to the critical set. -/
def no_critical_symptom (symptoms : List String) : Prop :=
  ∀ s ∈ symptoms, s ∉ critical_symptoms

/-- The fall-through condition of the vital-signs checks of
`_determine_triage_level` (with its `get` defaults SpO2=100, HR=0, SBP=0):
on a non-empty dict, no hard threshold fires. -/
def no_vital_override (v : Vitals) : Prop :=
  v ≠ [] →
    (85 ≤ vget v "oxygen_saturation" 100 ∧
     vget v "heart_rate" 0 ≤ 140 ∧ 40 ≤ vget v "heart_rate" 0 ∧
     vget v "blood_pressure_systolic" 0 ≤ 200 ∧
     80 ≤ vget v "blood_pressure_systolic" 0)

/-- C4 (code bug): with no critical symptom and no vital-sign override,
`_determine_triage_level` would map the risk score to exactly the bucket
(r≥80 RED, 60≤r<80 YELLOW, 30≤r<60 GREEN, r<30 WHITE) — the buckets cover
every score without overlap and the priority is monotone in the score — but
`perform_triage` never performs this bucketing: every call raises the
`TypeError` from `_predict_risk` before a risk score exists. -/
theorem risk_bucket_classification_unreachable (session_id patient_id timestamp : String)
    (symptoms : List String) (vital_signs : Vitals)
    (medical_history : Option (List String))
    (hc : no_critical_symptom symptoms) (hv : no_vital_override vital_signs) :
    (∀ r : ℚ, determine_triage_level r vital_signs symptoms = risk_bucket r) ∧
    perform_triage session_id patient_id timestamp symptoms vital_signs
        medical_history
      = Except.error
        "TypeError: type numpy.ndarray does not define __round__ method" ∧
    (∀ r : ℚ,
      (risk_bucket r = "CODICE_ROSSO" ↔ 80 ≤ r) ∧
      (risk_bucket r = "CODICE_GIALLO" ↔ 60 ≤ r ∧ r < 80) ∧
      (risk_bucket r = "CODICE_VERDE" ↔ 30 ≤ r ∧ r < 60) ∧
      (risk_bucket r = "CODICE_BIANCO" ↔ r < 30)) ∧
    (∀ r1 r2 : ℚ, r1 ≤ r2 →
      priority_of (risk_bucket r2) ≤ priority_of (risk_bucket r1)) := by
  have hcrit : ¬∃ s ∈ symptoms, s ∈ critical_symptoms :=
    fun ⟨s, hs, hin⟩ => hc s hs hin
  have hdet : ∀ r : ℚ, determine_triage_level r vital_signs symptoms = risk_bucket r := by
    intro r
    unfold determine_triage_level risk_bucket
    rw [if_neg hcrit,
      if_neg (fun h : _ ∧ _ => absurd h.2 (not_lt.2 (hv h.1).1)),
      if_neg (fun h : _ ∧ _ => h.2.elim
        (fun hlt => absurd hlt (not_lt.2 (hv h.1).2.1))
        (fun hlt => absurd hlt (not_lt.2 (hv h.1).2.2.1))),
      if_neg (fun h : _ ∧ _ => h.2.elim
        (fun hlt => absurd hlt (not_lt.2 (hv h.1).2.2.2.1))
        (fun hlt => absurd hlt (not_lt.2 (hv h.1).2.2.2.2)))]
  refine ⟨hdet, perform_triage_eq_error session_id patient_id timestamp
    symptoms vital_signs medical_history, ?_, ?_⟩
  · intro r
    refine ⟨?_, ?_, ?_, ?_⟩ <;> unfold risk_bucket <;> split_ifs with h1 h2 h3 <;>
      simp <;>
      first
        | linarith
        | (intros; linarith)
        | (refine ⟨h2, ?_⟩; linarith)
        | (refine ⟨h3, ?_⟩; linarith)
  · intro r1 r2 h12
    unfold risk_bucket
    split_ifs with a1 a2 a3 b1 b2 b3 <;>
      simp [priority_of, pyFind, triage_levels] <;> linarith

theorem risk_bucket_classification_unreachable_check :
    no_critical_symptom ["fever"] ∧
    no_vital_override
      [("heart_rate", 95), ("blood_pressure_systolic", 120),
       ("oxygen_saturation", 97)] ∧
    (∀ r : ℚ, determine_triage_level r
      [("heart_rate", 95), ("blood_pressure_systolic", 120),
       ("oxygen_saturation", 97)] ["fever"] = risk_bucket r) ∧
    perform_triage "sid" "pid" "t0" ["fever"]
        [("heart_rate", 95), ("blood_pressure_systolic", 120),
         ("oxygen_saturation", 97)] none
      = Except.error
        "TypeError: type numpy.ndarray does not define __round__ method" := by
  have hc : no_critical_symptom ["fever"] := by
    intro s hs
    simp at hs
    simp [hs, critical_symptoms]
  have hv : no_vital_override
      [("heart_rate", 95), ("blood_pressure_systolic", 120),
       ("oxygen_saturation", 97)] := by
    intro hne
    refine ⟨?_, ?_, ?_, ?_, ?_⟩ <;> simp [vget, pyGet] <;> norm_num
  have h := risk_bucket_classification_unreachable "sid" "pid" "t0" ["fever"]
    [("heart_rate", 95), ("blood_pressure_systolic", 120),
     ("oxygen_saturation", 97)] none hc hv
  exact ⟨hc, hv, h.1, h.2.1⟩

theorem top_symptoms_eq :
    top_symptoms = ["chest_pain", "difficulty_breathing", "severe_headache",
      "loss_of_consciousness", "seizure", "severe_bleeding", "abdominal_pain",
      "fever", "cough", "fatigue"] := rfl

theorem determine_triage_level_mem (risk_score : ℚ) (vital_signs : Vitals)
    (symptoms : List String) :
    determine_triage_level risk_score vital_signs symptoms = "CODICE_ROSSO" ∨
    determine_triage_level risk_score vital_signs symptoms = "CODICE_GIALLO" ∨
    determine_triage_level risk_score vital_signs symptoms = "CODICE_VERDE" ∨
    determine_triage_level risk_score vital_signs symptoms = "CODICE_BIANCO" := by
  unfold determine_triage_level
  split_ifs <;> simp

/-- C9 (code bug): `perform_triage` is NOT total — it raises on every input.
The feature vector is reshaped to a `(1, 19)` numpy array, `predict_proba`
turns it into a `(19,)` array, and `round(array, 1)` in `_predict_risk`
raises `TypeError` (`numpy.ndarray` defines no `__round__` method), so no
invocation — the degenerate empty input included — ever returns a triage
session. -/
theorem perform_triage_always_raises :
    (∀ (session_id patient_id timestamp : String) (symptoms : List String)
      (vital_signs : Vitals) (medical_history : Option (List String)),
      perform_triage session_id patient_id timestamp symptoms vital_signs
          medical_history
        = Except.error
          "TypeError: type numpy.ndarray does not define __round__ method" ∧
      ∀ t : TriageSession,
        perform_triage session_id patient_id timestamp symptoms vital_signs
          medical_history ≠ Except.ok t) ∧
    perform_triage "sid" "pid" "t0" [] [] none
      = Except.error
        "TypeError: type numpy.ndarray does not define __round__ method" := by
  refine ⟨?_, rfl⟩
  intro session_id patient_id timestamp symptoms vital_signs medical_history
  refine ⟨rfl, ?_⟩
  intro t h
  rw [perform_triage_eq_error] at h
  exact Except.noConfusion h

theorem extract_features_length (symptoms : List String) (vital_signs : Vitals)
    (medical_history : Option (List String)) :
    (extract_features symptoms vital_signs medical_history).length = 19 := by
  unfold extract_features
  rcases medical_history with _ | h
  · simp [top_symptoms_eq]
  · by_cases hE : h.isEmpty <;> simp [top_symptoms_eq, hE, risk_factors]

theorem extract_features_bounds (symptoms : List String) (vital_signs : Vitals)
    (medical_history : Option (List String))
    (hv : ∀ p ∈ vital_signs, 0 ≤ p.2 ∧ p.2 ≤ 400) :
    ∀ x ∈ extract_features symptoms vital_signs medical_history,
      0 ≤ x ∧ x ≤ 10 := by
  intro x hx
  unfold extract_features at hx
  rcases List.mem_append.1 hx with hx | hx
  · rcases List.mem_append.1 hx with hx | hx
    · rcases List.mem_map.1 hx with ⟨s, -, rfl⟩
      split_ifs <;> norm_num
    · have hhr := vget_bound "heart_rate"
        (by norm_num : (0:ℚ) ≤ 70 ∧ (70:ℚ) ≤ 400) hv
      have hbp := vget_bound "blood_pressure_systolic"
        (by norm_num : (0:ℚ) ≤ 120 ∧ (120:ℚ) ≤ 400) hv
      have hox := vget_bound "oxygen_saturation"
        (by norm_num : (0:ℚ) ≤ 98 ∧ (98:ℚ) ≤ 400) hv
      have htm := vget_bound "temperature"
        (by norm_num : (0:ℚ) ≤ 36.5 ∧ (36.5:ℚ) ≤ 400) hv
      simp only [List.mem_cons, List.not_mem_nil, or_false] at hx
      rcases hx with rfl | rfl | rfl | rfl
      · exact ⟨div_nonneg hhr.1 (by norm_num),
          by rw [div_le_iff₀ (by norm_num : (0:ℚ) < 200)]; linarith [hhr.2]⟩
      · exact ⟨div_nonneg hbp.1 (by norm_num),
          by rw [div_le_iff₀ (by norm_num : (0:ℚ) < 200)]; linarith [hbp.2]⟩
      · exact ⟨div_nonneg hox.1 (by norm_num),
          by rw [div_le_iff₀ (by norm_num : (0:ℚ) < 100)]; linarith [hox.2]⟩
      · exact ⟨div_nonneg htm.1 (by norm_num),
          by rw [div_le_iff₀ (by norm_num : (0:ℚ) < 40)]; linarith [htm.2]⟩
  · rcases medical_history with _ | h
    · simp only [List.eq_of_mem_replicate hx]
      norm_num
    · simp only at hx
      by_cases hE : h.isEmpty
    
      · rw [if_pos hE] at hx
        simp only [List.eq_of_mem_replicate hx]
        norm_num
      · rw [if_neg hE] at hx
        rcases List.mem_map.1 hx with ⟨f, -, rfl⟩
        split_ifs <;> norm_num

/-- C1 (code bug): the claimed risk-score formula is never computed — and no
other one is either.  `_predict_risk` reshapes the 19-element feature vector
to a `(1, 19)` numpy array; inside `predict_proba` the builtin `sum` over
that array keeps a `(19,)` array and `len` is 1, so the value reaching
`round(·, 1)` is an ndarray and every call raises `TypeError` instead of
returning a score. -/
theorem risk_score_never_computed (symptoms : List String)
    (vital_signs : Vitals) (medical_history : Option (List String)) :
    (extract_features symptoms vital_signs medical_history).length = 19 ∧
    predict_risk (extract_features symptoms vital_signs medical_history)
      = Except.error
        "TypeError: type numpy.ndarray does not define __round__ method" ∧
    ∀ q : ℚ,
      predict_risk (extract_features symptoms vital_signs medical_history)
        ≠ Except.ok q := by
  refine ⟨extract_features_length symptoms vital_signs medical_history,
    predict_risk_eq_error _, ?_⟩
  intro q h
  rw [predict_risk_eq_error] at h
  exact Except.noConfusion h

end AITriage

/-- First-match in-place update of a Python object found by a scan
(`next(x for x in xs if ...)` followed by mutation of that object). -/
def updateFirst {β : Type} (p : β → Bool) (f : β → β) : List β → List β
  | [] => []
  | x :: xs => if p x then f x :: xs else x :: updateFirst p f xs

/-- Python `min(xs, key=f)`: the first element attaining the minimal key. -/
def selectMinBy {β γ : Type} [LinearOrder γ] (f : β → γ) : List β → Option β
  | [] => none
  | x :: xs => some (xs.foldl (fun best y => if f y < f best then y else best) x)

namespace Emergency

/-- A `{'lat': .., 'lon': ..}` coordinate dict. -/
structure GeoPoint where
  lat : ℚ
  lon : ℚ
deriving DecidableEq

/-- Static hospital reference data from `_find_nearest_hospital`. -/
structure Hospital where
  hid : String
  name : String
  coordinates : GeoPoint
  phone : String
deriving DecidableEq

/-- The selected-hospital record: static data plus the `distance_km`
(rounded to one decimal) and `eta_minutes` fields that
`_find_nearest_hospital` writes into each hospital dict. -/
structure HospitalInfo where
  hid : String
  name : String
  coordinates : GeoPoint
  phone : String
  distance_km : ℚ
  eta_minutes : ℤ
deriving DecidableEq

/-- An ambulance record of `_initialize_ambulances`.  The source key `type`
is a Lean keyword and is rendered `atype`; `current_mission` is absent until
first set and is modelled as an `Option` starting at `none`. -/
structure Ambulance where
  id : String
  atype : String
  crew : List String
  location : GeoPoint
  status : String
  equipment : List String
  current_mission : Option String
deriving DecidableEq

/-- The clinical-update flags read by `_determine_hospital_resources`. -/
structure ClinicalUpdate where
  ventilation_needed : Bool
  cardiac_monitoring : Bool
  stroke_symptoms : Bool
  trauma : Bool
deriving DecidableEq

/-- A dispatch `updates` entry (timestamp, status, optional clinical payload). -/
structure UpdateEvent where
  timestamp : ℚ
  status : String
  clinical_update : Option ClinicalUpdate
deriving DecidableEq

/-- The patient-data dict handed to `initiate_emergency_call`. -/
structure PatientSnapshot where
  nome : String
  cognome : String
  codice_fiscale : String
deriving DecidableEq

/-- An emergency-call record.  Timestamps are instants in minutes (`ℚ`);
`call_history` keeps (action, timestamp) pairs. -/
structure EmergencyCall where
  id : String
  patient_id : String
  patient_name : String
  patient_cf : String
  emergency_type : String
  triage_level : String
  location : GeoPoint
  nearest_hospital : HospitalInfo
  resources_needed : List String
  status : String
  timestamp : ℚ
  ambulance_dispatched : Bool
  dispatch_id : Option String
  call_history : List (String × ℚ)
  completed_at : Option ℚ
deriving DecidableEq

/-- A dispatch record of `dispatch_ambulance`.  The patient summary handed to
the ambulance crew by `_send_patient_data_to_ambulance` is derived data sent
to an external collaborator; only its `patient_data_sent` flag is kept. -/
structure Dispatch where
  id : String
  emergency_call_id : String
  ambulance_id : String
  ambulance_type : String
  crew : List String
  equipment : List String
  dispatch_time : ℚ
  estimated_arrival : ℚ
  eta_minutes : ℚ
  location_from : GeoPoint
  location_to : GeoPoint
  destination_hospital : HospitalInfo
  status : String
  route : List String
  updates : List UpdateEvent
  patient_data_sent : Bool
  completed_at : Option ℚ
  outcome : Option String
deriving DecidableEq

/-- The mutable state of an `EmergencyService` object. -/
structure EmState where
  emergency_calls : List EmergencyCall
  ambulance_dispatches : List Dispatch
  active_ambulances : List Ambulance
deriving DecidableEq

/-- `_initialize_ambulances` (dict values in insertion order). -/
def initFleet : List Ambulance :=
  [{ id := "AMB-001", atype := "medicalizzata",
     crew := ["autista", "infermiere", "rianimatore"],
     location := { lat := 43.6100, lon := 13.5200 }, status := "available",
     equipment := ["defibrillatore", "ventilatore", "farmaci_emergenza"],
     current_mission := none },
   { id := "AMB-002", atype := "basica",
     crew := ["autista", "soccorritore"],
     location := { lat := 43.6200, lon := 13.5300 }, status := "available",
     equipment := ["barella", "ossigeno", "presidi_base"],
     current_mission := none },
   { id := "AMB-003", atype := "medicalizzata",
     crew := ["autista", "infermiere", "medico"],
     location := { lat := 43.6000, lon := 13.5100 }, status := "available",
     equipment := ["ecografo", "defibrillatore", "farmaci"],
     current_mission := none }]

/-- `EmergencyService.__init__`: empty call and dispatch stores, the fixed
three-ambulance fleet. -/
def initState : EmState :=
  { emergency_calls := [], ambulance_dispatches := [],
    active_ambulances := initFleet }

/-- The hospital table of `_find_nearest_hospital`. -/
def hospitals_table : List Hospital :=
  [{ hid := "torrette", name := "Ospedali Riuniti Torrette",
     coordinates := { lat := 43.5901, lon := 13.5302 }, phone := "071596111" },
   { hid := "salesi", name := "Ospedale Pediatrico Salesi",
     coordinates := { lat := 43.5905, lon := 13.5305 }, phone := "071596211" },
   { hid := "inrca", name := "INRCA Ancona",
     coordinates := { lat := 43.5850, lon := 13.5250 }, phone := "0718003711" }]

/-- `math.atan2` for the haversine formula. -/
noncomputable def atan2 (y x : ℝ) : ℝ :=
  if 0 < x then Real.arctan (y / x)
  else if x < 0 ∧ 0 ≤ y then Real.arctan (y / x) + Real.pi
  else if x < 0 ∧ y < 0 then Real.arctan (y / x) - Real.pi
  else if x = 0 ∧ 0 < y then Real.pi / 2
  else if x = 0 ∧ y < 0 then -(Real.pi / 2)
  else 0

/-- `EmergencyService._calculate_distance`: the haversine great-circle
distance (km) over a sphere of radius 6371. -/
noncomputable def haversineDist (p q : GeoPoint) : ℝ :=
  let lat1 := Real.pi * (p.lat : ℝ) / 180
  let lat2 := Real.pi * (q.lat : ℝ) / 180
  let dlat := Real.pi * ((q.lat : ℝ) - (p.lat : ℝ)) / 180
  let dlon := Real.pi * ((q.lon : ℝ) - (p.lon : ℝ)) / 180
  let a := Real.sin (dlat / 2) ^ 2 +
    Real.cos lat1 * Real.cos lat2 * Real.sin (dlon / 2) ^ 2
  let c := 2 * atan2 (Real.sqrt a) (Real.sqrt (1 - a))
  6371 * c

/-- A computable squared-Euclidean surrogate distance, used to exercise the
distance-parametric operations on concrete states. -/
def sqDist (p q : GeoPoint) : ℚ :=
  (q.lat - p.lat) ^ 2 + (q.lon - p.lon) ^ 2

/-- `EmergencyService._find_nearest_hospital`, parametrised by the distance
function (`haversineDist` in the source).  Each hospital dict gets
`distance_km = round(distance, 1)` and `eta_minutes = round(distance / 0.5)`;
the minimum is taken over the rounded `distance_km` keys (Python `min` keeps
the first minimal element). -/
def find_nearest_hospital {α : Type} [LinearOrderedField α] [FloorRing α]
    (dist : GeoPoint → GeoPoint → α) (location : GeoPoint) : HospitalInfo :=
  let augmented := hospitals_table.map (fun h =>
    let d := dist location h.coordinates
    { hid := h.hid, name := h.name, coordinates := h.coordinates,
      phone := h.phone,
      distance_km := ((pyRound (10 * d) : ℤ) : ℚ) / 10,
      eta_minutes := pyRound (d / (1/2 : α)) : HospitalInfo })
  match selectMinBy (fun h => h.distance_km) augmented with
  | some h => h
  | none => -- unreachable: the hospital table is non-empty
    { hid := "", name := "", coordinates := { lat := 0, lon := 0 },
      phone := "", distance_km := 0, eta_minutes := 0 }

/-- The `emergency_resources` table of `_determine_resources`. -/
def emergency_resources : List (String × List String) :=
  [("CARDIAC_ARREST",
    ["ambulanza_con_rianimatore", "defibrillatore", "farmaci_emergenza"]),
   ("STROKE", ["ambulanza_con_neurologo", "tac_prenotata", "team_ictus"]),
   ("SEVERE_TRAUMA", ["elisoccorso", "sala_operatoria", "team_trauma"]),
   ("RESPIRATORY_FAILURE",
    ["ambulanza_con_ventilatore", "pneumologo", "emogasanalisi"]),
   ("ACUTE_ABDOMEN", ["ambulanza", "chirurgo", "ecografo"]),
   ("CONVULSIONS", ["ambulanza", "neurologo", "farmaci_antiepilettici"])]

/-- `EmergencyService._determine_resources`.  The final `list(set(...))`
deduplication (hash order in CPython) is modelled as first-occurrence
deduplication. -/
def determine_resources (emergency_type triage_level : String) : List String :=
  let resources := pyGet emergency_resources emergency_type ["ambulanza"]
  let resources :=
    if triage_level = "CODICE_ROSSO" then
      resources ++ ["preallarme_ps", "team_rianimazione"]
    else resources
  resources.eraseDups

/-- `EmergencyService._calculate_eta`: minutes (floored at 1) and the
estimated-arrival instant `now + minutes` (the source feeds the *unclamped*
minutes into the timedelta). -/
def calculate_eta {α : Type} [LinearOrderedField α] [FloorRing α]
    (dist : GeoPoint → GeoPoint → α) (from_loc to_loc : GeoPoint)
    (now : ℚ) : ℤ × ℚ :=
  let distance := dist from_loc to_loc
  let minutes := pyRound (distance / 40 * 60)
  (pymax 1 minutes, now + (minutes : ℚ))

/-- `EmergencyService._calculate_route` (static illustrative route). -/
def calculate_route (from_loc to_loc : GeoPoint) : List String :=
  ["Via Flaminia", "SS16", "Via Torrette"]

/-- `EmergencyService.dispatch_ambulance`, parametrised by the distance
function.  Fresh `DSP-...` id and `datetime.now()` are arguments.  Returns
the post-state and the dispatch (or the raised error, with the state
unchanged, since the source raises before any mutation).
`_find_nearest_ambulance` filters the AVAILABLE fleet and falls back to the
whole fleet when none is available; the nearest candidate wins.
`_send_patient_data_to_ambulance` sets `patient_data_sent` before return. -/
def dispatch_ambulance {α : Type} [LinearOrderedField α] [FloorRing α]
    (dist : GeoPoint → GeoPoint → α) (s : EmState) (now : ℚ)
    (dispatch_id emergency_call_id : String) : EmState × Except String Dispatch :=
  match s.emergency_calls.find? (fun c => c.id == emergency_call_id) with
  | none => (s, Except.error "Emergency call not found")
  | some call =>
    let avail := s.active_ambulances.filter (fun a => a.status == "available")
    let candidates := if avail.isEmpty then s.active_ambulances else avail
    match selectMinBy (fun a => dist call.location a.location) candidates with
    | none => (s, Except.error "min() arg is an empty sequence")
    | some amb =>
      let eta := calculate_eta dist amb.location call.location now
      let fleet := updateFirst (fun a => a.id == amb.id)
        (fun a => { a with status := "dispatched",
                           current_mission := some dispatch_id })
        s.active_ambulances
      let dsp : Dispatch :=
        { id := dispatch_id
          emergency_call_id := emergency_call_id
          ambulance_id := amb.id
          ambulance_type := amb.atype
          crew := amb.crew
          equipment := amb.equipment
          dispatch_time := now
          estimated_arrival := eta.2
          eta_minutes := (eta.1 : ℚ)
          location_from := amb.location
          location_to := call.location
          destination_hospital := call.nearest_hospital
          status := "dispatched"
          route := calculate_route amb.location call.location
          updates := [{ timestamp := now, status := "dispatched",
                        clinical_update := none }]
          patient_data_sent := true
          completed_at := none
          outcome := none }
      let calls := updateFirst (fun c => c.id == emergency_call_id)
        (fun c => { c with ambulance_dispatched := true,
                           dispatch_id := some dispatch_id,
                           status := "ambulance_dispatched",
                           call_history :=
                             c.call_history ++ [("ambulance_dispatched", now)] })
        s.emergency_calls
      ({ emergency_calls := calls,
         ambulance_dispatches := s.ambulance_dispatches ++ [dsp],
         active_ambulances := fleet }, Except.ok dsp)

/-- Tail of the `CODICE_ROSSO` branch of `initiate_emergency_call`: on a
successful auto-dispatch the originating call is marked
`ambulance_dispatched` and receives the dispatch id; a dispatch failure is
propagated with the intermediate state unchanged. -/
def record_auto_dispatch (call_id : String)
    (res : EmState × Except String Dispatch) : EmState × Except String Unit :=
  match res with
  | (s₂, Except.ok dsp) =>
    let calls₃ := updateFirst (fun c => c.id == call_id)
      (fun c => { c with ambulance_dispatched := true,
                         dispatch_id := some dsp.id })
      s₂.emergency_calls
    ({ s₂ with emergency_calls := calls₃ }, Except.ok ())
  | (s₂, Except.error e) => (s₂, Except.error e)

/-- `EmergencyService.initiate_emergency_call`.  Fresh `EMS-...` id, a fresh
dispatch id for the auto-dispatch path, and `datetime.now()` are arguments.
`_notify_118_central` only prints and appends a `118_notified` history event.
For `CODICE_ROSSO` the call immediately dispatches an ambulance and copies
the dispatch id onto the call. -/
def initiate_emergency_call {α : Type} [LinearOrderedField α] [FloorRing α]
    (dist : GeoPoint → GeoPoint → α) (s : EmState) (now : ℚ)
    (call_id dispatch_id patient_id : String) (location : GeoPoint)
    (emergency_type triage_level : String)
    (patient_data : Option PatientSnapshot) : EmState × Except String Unit :=
  let nearest := find_nearest_hospital dist location
  let resources := determine_resources emergency_type triage_level
  let call : EmergencyCall :=
    { id := call_id
      patient_id := patient_id
      patient_name :=
        match patient_data with
        | some p => p.cognome ++ " " ++ p.nome
        | none => "Sconosciuto"
      patient_cf :=
        match patient_data with
        | some p => p.codice_fiscale
        | none => ""
      emergency_type := emergency_type
      triage_level := triage_level
      location := location
      nearest_hospital := nearest
      resources_needed := resources
      status := "initiated"
      timestamp := now
      ambulance_dispatched := false
      dispatch_id := none
      call_history := [("call_initiated", now), ("118_notified", now)]
      completed_at := none }
  let s₁ : EmState := { s with emergency_calls := s.emergency_calls ++ [call] }
  if triage_level = "CODICE_ROSSO" then
    record_auto_dispatch call_id (dispatch_ambulance dist s₁ now dispatch_id call_id)
  else (s₁, Except.ok ())

/-- `EmergencyService._map_dispatch_status_to_ambulance`. -/
def map_dispatch_status_to_ambulance (status : String) : String :=
  pyGet [("dispatched", "en_route"), ("arrived_at_patient", "on_scene"),
         ("patient_on_board", "transporting"),
         ("arrived_at_hospital", "at_hospital"), ("completed", "available")]
    status "en_route"

/-- `EmergencyService.update_ambulance_status`.  Appends a status event, maps
the dispatch status onto the fleet record (when the ambulance id is known),
and returns the updated dispatch.  `_notify_hospital_of_incoming` is a pure
notification without state effect. -/
def update_ambulance_status (s : EmState) (now : ℚ) (dispatch_id status : String)
    (clinical_update : Option ClinicalUpdate) : EmState × Except String Dispatch :=
  match s.ambulance_dispatches.find? (fun d => d.id == dispatch_id) with
  | none => (s, Except.error "Dispatch not found")
  | some d =>
    let upd : Dispatch → Dispatch := fun x =>
      { x with status := status,
               updates := x.updates ++
                 [{ timestamp := now, status := status,
                    clinical_update := clinical_update }] }
    let fleet := updateFirst (fun a => a.id == d.ambulance_id)
      (fun a => { a with status := map_dispatch_status_to_ambulance status })
      s.active_ambulances
    ({ s with
        ambulance_dispatches :=
          updateFirst (fun x => x.id == dispatch_id) upd s.ambulance_dispatches,
        active_ambulances := fleet }, Except.ok (upd d))

/-- `EmergencyService.complete_emergency_mission`: marks the dispatch and the
linked call completed, restores the ambulance to `available` at the
dispatch destination and clears its mission link. -/
def complete_emergency_mission (s : EmState) (now : ℚ)
    (dispatch_id : String) (outcome : String) : EmState × Except String Dispatch :=
  match s.ambulance_dispatches.find? (fun d => d.id == dispatch_id) with
  | none => (s, Except.error "Dispatch not found")
  | some d =>
    let upd : Dispatch → Dispatch := fun x =>
      { x with status := "completed", completed_at := some now,
               outcome := some outcome }
    let fleet := updateFirst (fun a => a.id == d.ambulance_id)
      (fun a => { a with status := "available", location := d.location_to,
                         current_mission := none })
      s.active_ambulances
    let calls := updateFirst (fun c => c.id == d.emergency_call_id)
      (fun c => { c with status := "completed", completed_at := some now })
      s.emergency_calls
    ({ emergency_calls := calls,
       ambulance_dispatches :=
         updateFirst (fun x => x.id == dispatch_id) upd s.ambulance_dispatches,
       active_ambulances := fleet }, Except.ok (upd d))

/-- The progress dict of `_calculate_trip_progress`. -/
structure Progress where
  current_location : GeoPoint
  percentage : ℚ
  remaining_minutes : ℤ
  estimated_arrival : ℚ
  speed : ℤ
  next_waypoint : String
deriving DecidableEq

/-- `EmergencyService._calculate_trip_progress`: the elapsed minutes against
the fixed ETA give a percentage clamped above at 100 (rounded to one decimal
in the output), a linear interpolation between the endpoints, and the
remaining minutes floored at 0. -/
def calculate_trip_progress (d : Dispatch) (now : ℚ) : Progress :=
  let elapsed := now - d.dispatch_time
  let total_eta := d.eta_minutes
  let progress_percentage := pymin (elapsed / total_eta * 100) 100
  let current_location : GeoPoint :=
    { lat := d.location_from.lat +
        (d.location_to.lat - d.location_from.lat) * (progress_percentage / 100),
      lon := d.location_from.lon +
        (d.location_to.lon - d.location_from.lon) * (progress_percentage / 100) }
  let remaining_minutes := pymax 0 (total_eta - elapsed)
  { current_location := current_location
    percentage := pyRound1 progress_percentage
    remaining_minutes := pyRound remaining_minutes
    estimated_arrival := now + remaining_minutes
    speed := pyRound (40 + progress_percentage / 100 * 10)
    next_waypoint :=
      if 50 < progress_percentage then "Ospedale Regionale Torrette"
      else "Centro città" }

/-- The tracking dict of `track_ambulance`. -/
structure Tracking where
  dispatch_id : String
  ambulance_id : String
  current_location : GeoPoint
  progress_percentage : ℚ
  remaining_minutes : ℤ
  estimated_arrival : ℚ
  status : String
  speed_kmh : ℤ
  next_waypoint : String
  last_update : ℚ
deriving DecidableEq

/-- `EmergencyService.track_ambulance` (read-only). -/
def track_ambulance (s : EmState) (now : ℚ) (dispatch_id : String) :
    Except String Tracking :=
  match s.ambulance_dispatches.find? (fun d => d.id == dispatch_id) with
  | none => Except.error "Dispatch not found"
  | some d =>
    let progress := calculate_trip_progress d now
    Except.ok
      { dispatch_id := dispatch_id
        ambulance_id := d.ambulance_id
        current_location := progress.current_location
        progress_percentage := progress.percentage
        remaining_minutes := progress.remaining_minutes
        estimated_arrival := progress.estimated_arrival
        status := d.status
        speed_kmh := progress.speed
        next_waypoint := progress.next_waypoint
        last_update := now }

end Emergency

section ListLemmas

variable {β γ : Type}

theorem foldlMin_mem [LinearOrder γ] (f : β → γ) (x : β) (xs : List β) :
    xs.foldl (fun best y => if f y < f best then y else best) x ∈ x :: xs := by
  induction xs generalizing x with
  | nil => simp
  | cons y ys ih =>
    simp only [List.foldl_cons]
    have h := ih (if f y < f x then y else x)
    rcases List.mem_cons.1 h with h1 | h1
    · rw [h1]
      split_ifs <;> simp
    · simp [h1]

theorem foldlMin_le [LinearOrder γ] (f : β → γ) (x : β) (xs : List β) :
    f (xs.foldl (fun best y => if f y < f best then y else best) x) ≤ f x ∧
    ∀ b ∈ xs, f (xs.foldl (fun best y => if f y < f best then y else best) x) ≤ f b := by
  induction xs generalizing x with
  | nil => simp
  | cons y ys ih =>
    simp only [List.foldl_cons]
    have h := ih (if f y < f x then y else x)
    constructor
    · refine h.1.trans ?_
      split_ifs with hlt
      · exact le_of_lt hlt
      · exact le_refl _
    · intro b hb
      rcases List.mem_cons.1 hb with rfl | hb2
      · refine h.1.trans ?_
        split_ifs with hlt
        · exact le_refl _
        · exact le_of_not_lt hlt
      · exact h.2 b hb2

theorem selectMinBy_spec [LinearOrder γ] (f : β → γ) {l : List β} (hl : l ≠ []) :
    ∃ m, selectMinBy f l = some m ∧ m ∈ l ∧ ∀ b ∈ l, f m ≤ f b := by
  rcases l with _ | ⟨x, xs⟩
  · exact absurd rfl hl
  · refine ⟨_, rfl, foldlMin_mem f x xs, ?_⟩
    intro b hb
    rcases List.mem_cons.1 hb with rfl | hb2
    · exact (foldlMin_le f b xs).1
    · exact (foldlMin_le f x xs).2 b hb2

theorem updateFirst_of_find_none {p : β → Bool} {l : List β}
    (h : l.find? p = none) (f : β → β) : updateFirst p f l = l := by
  induction l with
  | nil => rfl
  | cons x xs ih =>
    rcases hx : p x with _ | _
    · rw [List.find?_cons_of_neg _ (by simp [hx])] at h
      simp [updateFirst, hx, ih h]
    · rw [List.find?_cons_of_pos _ hx] at h
      exact absurd h (by simp)

theorem updateFirst_decomp {p : β → Bool} {l : List β} {x : β}
    (h : l.find? p = some x) (f : β → β) :
    ∃ l₁ l₂, l = l₁ ++ x :: l₂ ∧ (∀ y ∈ l₁, p y = false) ∧
      updateFirst p f l = l₁ ++ f x :: l₂ := by
  induction l with
  | nil => simp [List.find?] at h
  | cons z zs ih =>
    rcases hz : p z with _ | _
    · rw [List.find?_cons_of_neg _ (by simp [hz])] at h
      obtain ⟨l₁, l₂, hl, hnp, hupd⟩ := ih h
      refine ⟨z :: l₁, l₂, by rw [List.cons_append, ← hl], ?_, ?_⟩
      · intro y hy
        rcases List.mem_cons.1 hy with rfl | hy2
        · exact hz
        · exact hnp y hy2
      · simp [updateFirst, hz, hupd]
    · rw [List.find?_cons_of_pos _ hz] at h
      have hx : z = x := by simpa using h
      subst hx
      exact ⟨[], zs, rfl, by simp, by simp [updateFirst, hz]⟩

theorem find?_append_cons_of_not {p : β → Bool} {l₁ : List β}
    (hnp : ∀ y ∈ l₁, p y = false) {x : β} (hx : p x = true) (l₂ : List β) :
    (l₁ ++ x :: l₂).find? p = some x := by
  induction l₁ with
  | nil => simp [List.find?_cons_of_pos _ hx]
  | cons z zs ih =>
    have hz := hnp z (List.mem_cons_self _ _)
    rw [List.cons_append, List.find?_cons_of_neg _ (by simp [hz])]
    exact ih (fun y hy => hnp y (List.mem_cons_of_mem _ hy))

theorem find?_updateFirst {p : β → Bool} {l : List β} {x : β}
    (h : l.find? p = some x) (f : β → β) (hf : p (f x) = true) :
    (updateFirst p f l).find? p = some (f x) := by
  obtain ⟨l₁, l₂, hl, hnp, hupd⟩ := updateFirst_decomp h f
  rw [hupd]
  exact find?_append_cons_of_not hnp hf l₂

theorem mem_updateFirst {p : β → Bool} {f : β → β} {l : List β} {y : β}
    (hy : y ∈ updateFirst p f l) :
    y ∈ l ∨ ∃ x, x ∈ l ∧ p x = true ∧ y = f x := by
  induction l with
  | nil => simp [updateFirst] at hy
  | cons z zs ih =>
    by_cases hz : p z
    · simp only [updateFirst, if_pos hz] at hy
      rcases List.mem_cons.1 hy with rfl | hy2
      · exact Or.inr ⟨z, List.mem_cons_self _ _, hz, rfl⟩
      · exact Or.inl (List.mem_cons_of_mem _ hy2)
    · simp only [updateFirst, if_neg hz] at hy
      rcases List.mem_cons.1 hy with rfl | hy2
      · exact Or.inl (List.mem_cons_self _ _)
      · rcases ih hy2 with h1 | ⟨x, hx1, hx2, hx3⟩
        · exact Or.inl (List.mem_cons_of_mem _ h1)
        · exact Or.inr ⟨x, List.mem_cons_of_mem _ hx1, hx2, hx3⟩

theorem map_updateFirst (p : β → Bool) (f : β → β) (g : β → γ) (l : List β)
    (hg : ∀ x, g (f x) = g x) : (updateFirst p f l).map g = l.map g := by
  induction l with
  | nil => rfl
  | cons z zs ih =>
    by_cases hz : p z
    · simp [updateFirst, hz, hg]
    · simp [updateFirst, hz, ih]

end ListLemmas

namespace Emergency

theorem dispatch_ambulance_spec {α : Type} [LinearOrderedField α] [FloorRing α]
    (dist : GeoPoint → GeoPoint → α) (s : EmState) (now : ℚ)
    (dispatch_id call_id : String) (hfleet : s.active_ambulances ≠ []) :
    ((dispatch_ambulance dist s now dispatch_id call_id).2
        = Except.error "Emergency call not found"
      ↔ s.emergency_calls.find? (fun c => c.id == call_id) = none) ∧
    (∀ call, s.emergency_calls.find? (fun c => c.id == call_id) = some call →
      ∃ amb dsp,
        (dispatch_ambulance dist s now dispatch_id call_id).2 = Except.ok dsp ∧
        dsp.ambulance_id = amb.id ∧
        (s.active_ambulances.filter (fun a => a.status == "available") ≠ [] →
          amb ∈ s.active_ambulances.filter (fun a => a.status == "available") ∧
          ∀ b ∈ s.active_ambulances.filter (fun a => a.status == "available"),
            dist call.location amb.location ≤ dist call.location b.location) ∧
        (s.active_ambulances.filter (fun a => a.status == "available") = [] →
          amb ∈ s.active_ambulances ∧
          ∀ b ∈ s.active_ambulances,
            dist call.location amb.location ≤ dist call.location b.location)) := by
  rcases hc : s.emergency_calls.find? (fun c => c.id == call_id) with _ | call
  · constructor
    · simp [dispatch_ambulance, hc]
    · intro call hcall
      rw [hc] at hcall
      cases hcall
  · by_cases hav : s.active_ambulances.filter (fun a => a.status == "available") = []
    · have hif : (if (s.active_ambulances.filter
          (fun a => a.status == "available")).isEmpty then s.active_ambulances
          else s.active_ambulances.filter (fun a => a.status == "available"))
          = s.active_ambulances := by
        rw [hav]
        simp
      obtain ⟨m, hsel, hmem, hmin⟩ :=
        selectMinBy_spec (fun a => dist call.location a.location) hfleet
      constructor
      · simp only [dispatch_ambulance, hc]
        rw [hif, hsel]
        simp [hc]
      · intro call2 hcall2
        rw [hc] at hcall2
        injection hcall2 with hcall2
        subst hcall2
        refine ⟨m, ?_⟩
        simp only [dispatch_ambulance, hc]
        rw [hif, hsel]
        exact ⟨_, rfl, rfl, fun hcon => absurd hav hcon, fun _ => ⟨hmem, hmin⟩⟩
    · have hif : (if (s.active_ambulances.filter
          (fun a => a.status == "available")).isEmpty then s.active_ambulances
          else s.active_ambulances.filter (fun a => a.status == "available"))
          = s.active_ambulances.filter (fun a => a.status == "available") := by
        rw [if_neg]
        simpa [List.isEmpty_iff] using hav
      obtain ⟨m, hsel, hmem, hmin⟩ :=
        selectMinBy_spec (fun a => dist call.location a.location) hav
      constructor
      · simp only [dispatch_ambulance, hc]
        rw [hif, hsel]
        simp [hc]
      · intro call2 hcall2
        rw [hc] at hcall2
        injection hcall2 with hcall2
        subst hcall2
        refine ⟨m, ?_⟩
        simp only [dispatch_ambulance, hc]
        rw [hif, hsel]
        exact ⟨_, rfl, rfl, fun _ => ⟨hmem, hmin⟩, fun hcon => absurd hcon hav⟩

/-- C6: `dispatch_ambulance` fails (raising "Emergency call not found")
exactly when the call id is unknown; otherwise it always succeeds and selects
the available ambulance with minimal haversine distance to the call location,
falling back — when no ambulance is available — to the nearest among all
ambulances instead of failing. -/
theorem dispatch_fails_iff_unknown_call_selects_nearest (s : EmState)
    (now : ℚ) (dispatch_id call_id : String)
    (hfleet : s.active_ambulances ≠ []) :
    ((dispatch_ambulance haversineDist s now dispatch_id call_id).2
        = Except.error "Emergency call not found"
      ↔ s.emergency_calls.find? (fun c => c.id == call_id) = none) ∧
    (∀ call, s.emergency_calls.find? (fun c => c.id == call_id) = some call →
      ∃ amb dsp,
        (dispatch_ambulance haversineDist s now dispatch_id call_id).2
          = Except.ok dsp ∧
        dsp.ambulance_id = amb.id ∧
        (s.active_ambulances.filter (fun a => a.status == "available") ≠ [] →
          amb ∈ s.active_ambulances.filter (fun a => a.status == "available") ∧
          ∀ b ∈ s.active_ambulances.filter (fun a => a.status == "available"),
            haversineDist call.location amb.location
              ≤ haversineDist call.location b.location) ∧
        (s.active_ambulances.filter (fun a => a.status == "available") = [] →
          amb ∈ s.active_ambulances ∧
          ∀ b ∈ s.active_ambulances,
            haversineDist call.location amb.location
              ≤ haversineDist call.location b.location)) :=
  dispatch_ambulance_spec haversineDist s now dispatch_id call_id hfleet

/-- Concrete hospital-info record for demonstration states. -/
def demoHospitalInfo : HospitalInfo :=
  { hid := "torrette", name := "Ospedali Riuniti Torrette",
    coordinates := { lat := 43.5901, lon := 13.5302 }, phone := "071596111",
    distance_km := 2.3, eta_minutes := 5 }

/-- Concrete emergency call for demonstration states. -/
def demoCall : EmergencyCall :=
  { id := "C1", patient_id := "P1", patient_name := "Rossi Mario",
    patient_cf := "RSSMRA", emergency_type := "OTHER",
    triage_level := "CODICE_VERDE",
    location := { lat := 43.61, lon := 13.52 },
    nearest_hospital := demoHospitalInfo, resources_needed := ["ambulanza"],
    status := "initiated", timestamp := 0, ambulance_dispatched := false,
    dispatch_id := none, call_history := [("call_initiated", 0)],
    completed_at := none }

/-- A state holding one open call over the initial fleet. -/
def demoState : EmState :=
  { emergency_calls := [demoCall], ambulance_dispatches := [],
    active_ambulances := initFleet }

theorem dispatch_fails_iff_unknown_call_selects_nearest_check :
    (demoState.active_ambulances ≠ []) ∧
    (((dispatch_ambulance haversineDist demoState 1 "D1" "C1").2
        = Except.error "Emergency call not found"
      ↔ demoState.emergency_calls.find? (fun c => c.id == "C1") = none) ∧
    (∀ call, demoState.emergency_calls.find? (fun c => c.id == "C1")
        = some call →
      ∃ amb dsp,
        (dispatch_ambulance haversineDist demoState 1 "D1" "C1").2
          = Except.ok dsp ∧
        dsp.ambulance_id = amb.id ∧
        (demoState.active_ambulances.filter (fun a => a.status == "available")
            ≠ [] →
          amb ∈ demoState.active_ambulances.filter
            (fun a => a.status == "available") ∧
          ∀ b ∈ demoState.active_ambulances.filter
            (fun a => a.status == "available"),
            haversineDist call.location amb.location
              ≤ haversineDist call.location b.location) ∧
        (demoState.active_ambulances.filter (fun a => a.status == "available")
            = [] →
          amb ∈ demoState.active_ambulances ∧
          ∀ b ∈ demoState.active_ambulances,
            haversineDist call.location amb.location
              ≤ haversineDist call.location b.location))) :=
  ⟨by simp [demoState, initFleet],
   dispatch_fails_iff_unknown_call_selects_nearest demoState 1 "D1" "C1"
     (by simp [demoState, initFleet])⟩

/-- C7: `complete_emergency_mission` fails (raising "Dispatch not found")
exactly when the dispatch id is unknown.  For every known dispatch the
returned and stored dispatch is marked completed; the linked emergency call
is marked completed; and the dispatched ambulance returns to `available`,
relocated to the dispatch destination, with its mission link cleared. -/
theorem complete_mission_spec (s : EmState) (now : ℚ)
    (dispatch_id outcome : String) :
    ((complete_emergency_mission s now dispatch_id outcome).2
        = Except.error "Dispatch not found"
      ↔ s.ambulance_dispatches.find? (fun x => x.id == dispatch_id) = none) ∧
    (∀ d, s.ambulance_dispatches.find? (fun x => x.id == dispatch_id)
        = some d →
      (complete_emergency_mission s now dispatch_id outcome).2
        = Except.ok { d with status := "completed", completed_at := some now,
                             outcome := some outcome } ∧
      ((complete_emergency_mission s now dispatch_id
          outcome).1).ambulance_dispatches.find? (fun x => x.id == dispatch_id)
        = some { d with status := "completed", completed_at := some now,
                        outcome := some outcome } ∧
      (∀ c, s.emergency_calls.find? (fun x => x.id == d.emergency_call_id)
          = some c →
        ((complete_emergency_mission s now dispatch_id
            outcome).1).emergency_calls.find?
            (fun x => x.id == d.emergency_call_id)
          = some { c with status := "completed", completed_at := some now }) ∧
      (∀ a, s.active_ambulances.find? (fun x => x.id == d.ambulance_id)
          = some a →
        ((complete_emergency_mission s now dispatch_id
            outcome).1).active_ambulances.find?
            (fun x => x.id == d.ambulance_id)
          = some { a with status := "available", location := d.location_to,
                          current_mission := none })) := by
  rcases hd : s.ambulance_dispatches.find? (fun x => x.id == dispatch_id)
    with _ | d
  · constructor
    · simp [complete_emergency_mission, hd]
    · intro d hd2
      rw [hd] at hd2
      cases hd2
  · have hpd := List.find?_some hd
    constructor
    · simp [complete_emergency_mission, hd]
    · intro d2 hd2
      rw [hd] at hd2
      injection hd2 with hd2
      subst hd2
      refine ⟨by simp [complete_emergency_mission, hd], ?_, ?_, ?_⟩
      · simp only [complete_emergency_mission, hd]
        exact find?_updateFirst hd _ (by simpa using hpd)
      · intro c hcall
        have hpc := List.find?_some hcall
        simp only [complete_emergency_mission, hd]
        exact find?_updateFirst hcall _ (by simpa using hpc)
      · intro a hamb
        have hpa := List.find?_some hamb
        simp only [complete_emergency_mission, hd]
        exact find?_updateFirst hamb _ (by simpa using hpa)

end Emergency

namespace Emergency

/-- Concrete dispatch for demonstration states (ETA 3 minutes). -/
def demoDispatch : Dispatch :=
  { id := "D1", emergency_call_id := "C1", ambulance_id := "AMB-001",
    ambulance_type := "medicalizzata", crew := ["autista"], equipment := [],
    dispatch_time := 0, estimated_arrival := 3, eta_minutes := 3,
    location_from := { lat := 43.61, lon := 13.52 },
    location_to := { lat := 43.605, lon := 13.515 },
    destination_hospital := demoHospitalInfo, status := "dispatched",
    route := ["SS16"], updates := [], patient_data_sent := true,
    completed_at := none, outcome := none }

/-- The demonstration call after its ambulance was dispatched. -/
def demoCall2 : EmergencyCall :=
  { demoCall with ambulance_dispatched := true, dispatch_id := some "D1", status := "ambulance_dispatched" }

/-- A state holding one active dispatch over the fleet. -/
def demoState2 : EmState :=
  { emergency_calls := [demoCall2],
    ambulance_dispatches := [demoDispatch],
    active_ambulances := updateFirst (fun a => a.id == "AMB-001")
      (fun a => { a with status := "dispatched", current_mission := some "D1" })
      initFleet }

theorem complete_mission_spec_check :
    demoState2.ambulance_dispatches.find? (fun x => x.id == "D1")
      = some demoDispatch ∧
    ((complete_emergency_mission demoState2 10 "D1" "esito").2
      = Except.ok { demoDispatch with status := "completed", completed_at := some 10, outcome := some "esito" } ∧
    ((complete_emergency_mission demoState2 10 "D1"
        "esito").1).ambulance_dispatches.find? (fun x => x.id == "D1")
      = some { demoDispatch with status := "completed", completed_at := some 10, outcome := some "esito" } ∧
    (∀ c, demoState2.emergency_calls.find?
        (fun x => x.id == demoDispatch.emergency_call_id) = some c →
      ((complete_emergency_mission demoState2 10 "D1"
          "esito").1).emergency_calls.find?
          (fun x => x.id == demoDispatch.emergency_call_id)
        = some { c with status := "completed", completed_at := some 10 }) ∧
    (∀ a, demoState2.active_ambulances.find?
        (fun x => x.id == demoDispatch.ambulance_id) = some a →
      ((complete_emergency_mission demoState2 10 "D1"
          "esito").1).active_ambulances.find?
          (fun x => x.id == demoDispatch.ambulance_id)
        = some { a with status := "available", location := demoDispatch.location_to, current_mission := none })) := by
  have hfound : demoState2.ambulance_dispatches.find? (fun x => x.id == "D1")
      = some demoDispatch := by
    simp [List.find?, demoState2, demoDispatch]
  exact ⟨hfound, (complete_mission_spec demoState2 10 "D1" "esito").2
    demoDispatch hfound⟩

/-- C8 fails as stated: the reported progress percentage is rounded to one
decimal, so it differs from the exact `min(elapsed/eta*100, 100)` value.  On
a dispatch with ETA 3 minutes, after 1 elapsed minute the code reports 33.3
while the claimed formula gives 100/3. -/
theorem track_progress_rounding_counterexample :
    (calculate_trip_progress demoDispatch 1).percentage = 333/10 ∧
    pymin ((1 - demoDispatch.dispatch_time) / demoDispatch.eta_minutes * 100)
      100 = 100/3 ∧
    ((333 : ℚ)/10) ≠ 100/3 := by
  refine ⟨?_, ?_, by norm_num⟩
  · simp [calculate_trip_progress, demoDispatch]
    norm_num [pymin, pyRound1, pyRound]
  · simp [demoDispatch]
    norm_num [pymin]

/-- C8 amended: for a dispatch with positive ETA and tracking instants not
before the dispatch time, the reported percentage equals
`round(min(elapsed/eta*100, 100), 1)`, always lies in [0, 100], and is
monotone in the elapsed time; `track_ambulance` reports exactly this value
for the stored dispatch. -/
theorem track_progress_amended (d : Dispatch) (now1 now2 : ℚ)
    (heta : 0 < d.eta_minutes) (h1 : d.dispatch_time ≤ now1) :
    (calculate_trip_progress d now1).percentage
      = pyRound1 (pymin ((now1 - d.dispatch_time) / d.eta_minutes * 100) 100) ∧
    0 ≤ (calculate_trip_progress d now1).percentage ∧
    (calculate_trip_progress d now1).percentage ≤ 100 ∧
    (now1 ≤ now2 →
      (calculate_trip_progress d now1).percentage
        ≤ (calculate_trip_progress d now2).percentage) ∧
    (∀ s : EmState,
      s.ambulance_dispatches.find? (fun x => x.id == d.id) = some d →
      ∃ tr, track_ambulance s now1 d.id = Except.ok tr ∧
        tr.progress_percentage = (calculate_trip_progress d now1).percentage) := by
  have hperc : ∀ t : ℚ, (calculate_trip_progress d t).percentage
      = pyRound1 (pymin ((t - d.dispatch_time) / d.eta_minutes * 100) 100) :=
    fun t => rfl
  refine ⟨hperc now1, ?_, ?_, ?_, ?_⟩
  · rw [hperc]
    refine pyRound1_nonneg (le_pymin ?_ (by norm_num))
    have hnum : 0 ≤ (now1 - d.dispatch_time) / d.eta_minutes :=
      div_nonneg (by linarith) (le_of_lt heta)
    linarith
  · rw [hperc]
    exact pyRound1_le_hundred (pymin_le_right _ _)
  · intro h12
    rw [hperc, hperc]
    refine pyRound1_mono (pymin_mono_left ?_)
    have hdiv : (now1 - d.dispatch_time) / d.eta_minutes
        ≤ (now2 - d.dispatch_time) / d.eta_minutes := by
      rw [div_eq_mul_inv, div_eq_mul_inv]
      apply mul_le_mul_of_nonneg_right (by linarith)
      exact inv_nonneg.2 heta.le
    linarith
  · intro s hs
    simp only [track_ambulance, hs]
    exact ⟨_, rfl, rfl⟩

theorem track_progress_amended_check :
    (0 < demoDispatch.eta_minutes) ∧ (demoDispatch.dispatch_time ≤ 1) ∧
    ((calculate_trip_progress demoDispatch 1).percentage
      = pyRound1 (pymin ((1 - demoDispatch.dispatch_time)
          / demoDispatch.eta_minutes * 100) 100) ∧
    0 ≤ (calculate_trip_progress demoDispatch 1).percentage ∧
    (calculate_trip_progress demoDispatch 1).percentage ≤ 100 ∧
    ((1 : ℚ) ≤ 2 →
      (calculate_trip_progress demoDispatch 1).percentage
        ≤ (calculate_trip_progress demoDispatch 2).percentage) ∧
    (∀ s : EmState,
      s.ambulance_dispatches.find? (fun x => x.id == demoDispatch.id)
        = some demoDispatch →
      ∃ tr, track_ambulance s 1 demoDispatch.id = Except.ok tr ∧
        tr.progress_percentage
          = (calculate_trip_progress demoDispatch 1).percentage)) := by
  have heta : (0 : ℚ) < demoDispatch.eta_minutes := by
    simp [demoDispatch]
  have h1 : demoDispatch.dispatch_time ≤ (1 : ℚ) := by
    simp [demoDispatch]
  exact ⟨heta, h1, track_progress_amended demoDispatch 1 2 heta h1⟩

end Emergency

namespace Emergency

/-- Dispatches of `l` that hold ambulance `aid` and are not completed. -/
def countActiveL (l : List Dispatch) (aid : String) : ℕ :=
  (l.filter (fun d => d.ambulance_id == aid && !(d.status == "completed"))).length

/-- Number of non-completed dispatches referencing ambulance `aid`. -/
def countActive (s : EmState) (aid : String) : ℕ :=
  countActiveL s.ambulance_dispatches aid

/-- States reachable from the initial `EmergencyService` state by any
sequence of the four mutating operations (with arbitrary arguments). -/
inductive Reach {α : Type} [LinearOrderedField α] [FloorRing α]
    (dist : GeoPoint → GeoPoint → α) : EmState → Prop where
  | init : Reach dist initState
  | initiate (s : EmState) (now : ℚ) (call_id dispatch_id patient_id : String)
      (location : GeoPoint) (emergency_type triage_level : String)
      (patient_data : Option PatientSnapshot) (h : Reach dist s) :
      Reach dist (initiate_emergency_call dist s now call_id dispatch_id
        patient_id location emergency_type triage_level patient_data).1
  | dispatch (s : EmState) (now : ℚ) (dispatch_id call_id : String)
      (h : Reach dist s) :
      Reach dist (dispatch_ambulance dist s now dispatch_id call_id).1
  | update (s : EmState) (now : ℚ) (dispatch_id status : String)
      (cu : Option ClinicalUpdate) (h : Reach dist s) :
      Reach dist (update_ambulance_status s now dispatch_id status cu).1
  | complete (s : EmState) (now : ℚ) (dispatch_id outcome : String)
      (h : Reach dist s) :
      Reach dist (complete_emergency_mission s now dispatch_id outcome).1


/-- One call, then its ambulance dispatched four times: after the third
dispatch the fleet is exhausted, and the fourth falls back to "any
ambulance" and double-books AMB-001.  The violation does not depend on the
distance function: with the whole fleet busy, whichever ambulance the
fallback selects already has an active dispatch. -/
def ceS1 : EmState :=
  (initiate_emergency_call sqDist initState 0 "C1" "DX" "P1"
    { lat := 43.61, lon := 13.52 } "OTHER" "CODICE_VERDE" none).1

def ceS2 : EmState := (dispatch_ambulance sqDist ceS1 1 "D1" "C1").1

def ceS3 : EmState := (dispatch_ambulance sqDist ceS2 2 "D2" "C1").1

def ceS4 : EmState := (dispatch_ambulance sqDist ceS3 3 "D3" "C1").1

def ceS5 : EmState := (dispatch_ambulance sqDist ceS4 4 "D4" "C1").1

/-- The freshly initiated call of the counterexample trace. -/
def ceCall0 : EmergencyCall :=
  { id := "C1", patient_id := "P1", patient_name := "Sconosciuto",
    patient_cf := "", emergency_type := "OTHER",
    triage_level := "CODICE_VERDE",
    location := { lat := 43.61, lon := 13.52 },
    nearest_hospital := find_nearest_hospital sqDist { lat := 43.61, lon := 13.52 },
    resources_needed := determine_resources "OTHER" "CODICE_VERDE",
    status := "initiated", timestamp := 0, ambulance_dispatched := false,
    dispatch_id := none,
    call_history := [("call_initiated", 0), ("118_notified", 0)],
    completed_at := none }

/-- The counterexample call after its latest dispatch. -/
def ceCallD (did : String) (hist : List (String × ℚ)) : EmergencyCall :=
  { ceCall0 with ambulance_dispatched := true, dispatch_id := some did, status := "ambulance_dispatched", call_history := hist }

def ceAmb1 (st : String) (m : Option String) : Ambulance :=
  { id := "AMB-001", atype := "medicalizzata",
    crew := ["autista", "infermiere", "rianimatore"],
    location := { lat := 43.61, lon := 13.52 }, status := st,
    equipment := ["defibrillatore", "ventilatore", "farmaci_emergenza"],
    current_mission := m }

def ceAmb2 (st : String) (m : Option String) : Ambulance :=
  { id := "AMB-002", atype := "basica",
    crew := ["autista", "soccorritore"],
    location := { lat := 43.62, lon := 13.53 }, status := st,
    equipment := ["barella", "ossigeno", "presidi_base"],
    current_mission := m }

def ceAmb3 (st : String) (m : Option String) : Ambulance :=
  { id := "AMB-003", atype := "medicalizzata",
    crew := ["autista", "infermiere", "medico"],
    location := { lat := 43.60, lon := 13.51 }, status := st,
    equipment := ["ecografo", "defibrillatore", "farmaci"],
    current_mission := m }

/-- A dispatch record of the counterexample trace (every leg rounds to 0
extra minutes, so the ETA is the 1-minute floor). -/
def ceD (did aid at_ : String) (crew equip : List String) (tnow : ℚ)
    (fromLoc : GeoPoint) : Dispatch :=
  { id := did, emergency_call_id := "C1", ambulance_id := aid,
    ambulance_type := at_, crew := crew, equipment := equip,
    dispatch_time := tnow, estimated_arrival := tnow, eta_minutes := 1,
    location_from := fromLoc,
    location_to := { lat := 43.61, lon := 13.52 },
    destination_hospital := find_nearest_hospital sqDist { lat := 43.61, lon := 13.52 },
    status := "dispatched", route := ["Via Flaminia", "SS16", "Via Torrette"],
    updates := [{ timestamp := tnow, status := "dispatched", clinical_update := none }],
    patient_data_sent := true, completed_at := none, outcome := none }

def ceD1 : Dispatch :=
  ceD "D1" "AMB-001" "medicalizzata" ["autista", "infermiere", "rianimatore"]
    ["defibrillatore", "ventilatore", "farmaci_emergenza"] 1
    { lat := 43.61, lon := 13.52 }

def ceD2 : Dispatch :=
  ceD "D2" "AMB-002" "basica" ["autista", "soccorritore"]
    ["barella", "ossigeno", "presidi_base"] 2 { lat := 43.62, lon := 13.53 }

def ceD3 : Dispatch :=
  ceD "D3" "AMB-003" "medicalizzata" ["autista", "infermiere", "medico"]
    ["ecografo", "defibrillatore", "farmaci"] 3 { lat := 43.60, lon := 13.51 }

def ceD4 : Dispatch :=
  ceD "D4" "AMB-001" "medicalizzata" ["autista", "infermiere", "rianimatore"]
    ["defibrillatore", "ventilatore", "farmaci_emergenza"] 4
    { lat := 43.61, lon := 13.52 }

theorem ceS1_eq : ceS1 =
    { emergency_calls := [ceCall0], ambulance_dispatches := [],
      active_ambulances :=
        [ceAmb1 "available" none, ceAmb2 "available" none,
         ceAmb3 "available" none] } := by
  simp [ceS1, initiate_emergency_call, initState, initFleet, ceCall0,
    ceAmb1, ceAmb2, ceAmb3]
  norm_num

theorem ceS2_eq : ceS2 =
    { emergency_calls :=
        [ceCallD "D1" [("call_initiated", 0), ("118_notified", 0),
          ("ambulance_dispatched", 1)]],
      ambulance_dispatches := [ceD1],
      active_ambulances :=
        [ceAmb1 "dispatched" (some "D1"), ceAmb2 "available" none,
         ceAmb3 "available" none] } := by
  unfold ceS2
  rw [ceS1_eq]
  have h21 : ¬(sqDist { lat := 43.61, lon := 13.52 } { lat := 43.62, lon := 13.53 }
      < sqDist { lat := 43.61, lon := 13.52 } { lat := 43.61, lon := 13.52 }) := by
    norm_num [sqDist]
  have h31 : ¬(sqDist { lat := 43.61, lon := 13.52 } { lat := 43.60, lon := 13.51 }
      < sqDist { lat := 43.61, lon := 13.52 } { lat := 43.61, lon := 13.52 }) := by
    norm_num [sqDist]
  have hmin : pyRound (sqDist { lat := 43.61, lon := 13.52 }
      { lat := 43.61, lon := 13.52 } / 40 * 60) = 0 := by
    norm_num [sqDist, pyRound]
  have hpm : pymax (1 : ℤ) 0 = 1 := by norm_num [pymax]
  simp [dispatch_ambulance, ceCall0, ceCallD, ceD, ceD1, ceAmb1, ceAmb2,
    ceAmb3, selectMinBy, updateFirst, calculate_eta, calculate_route,
    List.find?, List.filter, h21, h31, hmin, hpm]

theorem ceS3_eq : ceS3 =
    { emergency_calls :=
        [ceCallD "D2" [("call_initiated", 0), ("118_notified", 0),
          ("ambulance_dispatched", 1), ("ambulance_dispatched", 2)]],
      ambulance_dispatches := [ceD1, ceD2],
      active_ambulances :=
        [ceAmb1 "dispatched" (some "D1"), ceAmb2 "dispatched" (some "D2"),
         ceAmb3 "available" none] } := by
  unfold ceS3
  rw [ceS2_eq]
  have h32 : ¬(sqDist { lat := 43.61, lon := 13.52 } { lat := 43.60, lon := 13.51 }
      < sqDist { lat := 43.61, lon := 13.52 } { lat := 43.62, lon := 13.53 }) := by
    norm_num [sqDist]
  have hmin2 : pyRound (sqDist { lat := 43.62, lon := 13.53 }
      { lat := 43.61, lon := 13.52 } / 40 * 60) = 0 := by
    norm_num [sqDist, pyRound]
  have hpm : pymax (1 : ℤ) 0 = 1 := by norm_num [pymax]
  simp [dispatch_ambulance, ceCall0, ceCallD, ceD, ceD1, ceD2, ceAmb1,
    ceAmb2, ceAmb3, selectMinBy, updateFirst, calculate_eta,
    calculate_route, List.find?, List.filter, h32, hmin2, hpm]

theorem ceS4_eq : ceS4 =
    { emergency_calls :=
        [ceCallD "D3" [("call_initiated", 0), ("118_notified", 0),
          ("ambulance_dispatched", 1), ("ambulance_dispatched", 2),
          ("ambulance_dispatched", 3)]],
      ambulance_dispatches := [ceD1, ceD2, ceD3],
      active_ambulances :=
        [ceAmb1 "dispatched" (some "D1"), ceAmb2 "dispatched" (some "D2"),
         ceAmb3 "dispatched" (some "D3")] } := by
  unfold ceS4
  rw [ceS3_eq]
  have hmin3 : pyRound (sqDist { lat := 43.60, lon := 13.51 }
      { lat := 43.61, lon := 13.52 } / 40 * 60) = 0 := by
    norm_num [sqDist, pyRound]
  have hpm : pymax (1 : ℤ) 0 = 1 := by norm_num [pymax]
  simp [dispatch_ambulance, ceCall0, ceCallD, ceD, ceD1, ceD2, ceD3,
    ceAmb1, ceAmb2, ceAmb3, selectMinBy, updateFirst, calculate_eta,
    calculate_route, List.find?, List.filter, hmin3, hpm]

theorem ceS5_eq : ceS5 =
    { emergency_calls :=
        [ceCallD "D4" [("call_initiated", 0), ("118_notified", 0),
          ("ambulance_dispatched", 1), ("ambulance_dispatched", 2),
          ("ambulance_dispatched", 3), ("ambulance_dispatched", 4)]],
      ambulance_dispatches := [ceD1, ceD2, ceD3, ceD4],
      active_ambulances :=
        [ceAmb1 "dispatched" (some "D4"), ceAmb2 "dispatched" (some "D2"),
         ceAmb3 "dispatched" (some "D3")] } := by
  unfold ceS5
  rw [ceS4_eq]
  have h21 : ¬(sqDist { lat := 43.61, lon := 13.52 } { lat := 43.62, lon := 13.53 }
      < sqDist { lat := 43.61, lon := 13.52 } { lat := 43.61, lon := 13.52 }) := by
    norm_num [sqDist]
  have h31 : ¬(sqDist { lat := 43.61, lon := 13.52 } { lat := 43.60, lon := 13.51 }
      < sqDist { lat := 43.61, lon := 13.52 } { lat := 43.61, lon := 13.52 }) := by
    norm_num [sqDist]
  have hmin : pyRound (sqDist { lat := 43.61, lon := 13.52 }
      { lat := 43.61, lon := 13.52 } / 40 * 60) = 0 := by
    norm_num [sqDist, pyRound]
  have hpm : pymax (1 : ℤ) 0 = 1 := by norm_num [pymax]
  simp [dispatch_ambulance, ceCall0, ceCallD, ceD, ceD1, ceD2, ceD3, ceD4,
    ceAmb1, ceAmb2, ceAmb3, selectMinBy, updateFirst, calculate_eta,
    calculate_route, List.find?, List.filter, h21, h31, hmin, hpm]

/-- C5 fails on the code: this state is reachable (one emergency call, four
dispatch operations) and holds two non-completed dispatches, D1 and D4, that
both reference ambulance AMB-001 — the degraded "use any ambulance" fallback
double-books an already-dispatched ambulance. -/
theorem double_booking_reachable :
    Reach sqDist ceS5 ∧ 2 ≤ countActive ceS5 "AMB-001" := by
  constructor
  · exact Reach.dispatch ceS4 4 "D4" "C1"
      (Reach.dispatch ceS3 3 "D3" "C1"
        (Reach.dispatch ceS2 2 "D2" "C1"
          (Reach.dispatch ceS1 1 "D1" "C1"
            (Reach.initiate initState 0 "C1" "DX" "P1"
              { lat := 43.61, lon := 13.52 } "OTHER" "CODICE_VERDE" none
              Reach.init))))
  · rw [ceS5_eq]
    simp [countActive, countActiveL, ceD1, ceD2, ceD3, ceD4, ceD,
      List.filter]

/-- Guarded reachability: dispatches (and auto-dispatching RED calls) occur
only while some ambulance is available, and status updates or completions
never target an already-completed dispatch. -/
inductive GReach {α : Type} [LinearOrderedField α] [FloorRing α]
    (dist : GeoPoint → GeoPoint → α) : EmState → Prop where
  | init : GReach dist initState
  | initiate (s : EmState) (now : ℚ) (call_id dispatch_id patient_id : String)
      (location : GeoPoint) (emergency_type triage_level : String)
      (patient_data : Option PatientSnapshot) (h : GReach dist s)
      (hav : triage_level = "CODICE_ROSSO" →
        s.active_ambulances.filter (fun a => a.status == "available") ≠ []) :
      GReach dist (initiate_emergency_call dist s now call_id dispatch_id
        patient_id location emergency_type triage_level patient_data).1
  | dispatch (s : EmState) (now : ℚ) (dispatch_id call_id : String)
      (h : GReach dist s)
      (hav : s.active_ambulances.filter (fun a => a.status == "available") ≠ []) :
      GReach dist (dispatch_ambulance dist s now dispatch_id call_id).1
  | update (s : EmState) (now : ℚ) (dispatch_id status : String)
      (cu : Option ClinicalUpdate) (h : GReach dist s)
      (hnc : ∀ d ∈ s.ambulance_dispatches.find? (fun x => x.id == dispatch_id),
        d.status ≠ "completed") :
      GReach dist (update_ambulance_status s now dispatch_id status cu).1
  | complete (s : EmState) (now : ℚ) (dispatch_id outcome : String)
      (h : GReach dist s)
      (hnc : ∀ d ∈ s.ambulance_dispatches.find? (fun x => x.id == dispatch_id),
        d.status ≠ "completed") :
      GReach dist (complete_emergency_mission s now dispatch_id outcome).1

/-- The per-ambulance booking invariant: every ambulance is referenced by at
most one non-completed dispatch, available ambulances by none, and the fleet
ids are pairwise distinct. -/
def Inv (s : EmState) : Prop :=
  (∀ aid, countActive s aid ≤ 1) ∧
  (∀ a ∈ s.active_ambulances, a.status = "available" → countActive s a.id = 0) ∧
  (s.active_ambulances.map (fun a => a.id)).Nodup

theorem countActiveL_append (l₁ l₂ : List Dispatch) (aid : String) :
    countActiveL (l₁ ++ l₂) aid = countActiveL l₁ aid + countActiveL l₂ aid := by
  simp [countActiveL, List.filter_append]

theorem countActiveL_cons (d : Dispatch) (l : List Dispatch) (aid : String) :
    countActiveL (d :: l) aid =
      (if d.ambulance_id = aid ∧ d.status ≠ "completed" then 1 else 0)
        + countActiveL l aid := by
  by_cases h : d.ambulance_id = aid ∧ d.status ≠ "completed"
  · have hb : (d.ambulance_id == aid && !(d.status == "completed")) = true := by
      simp [h.1]
      exact h.2
    simp [countActiveL, List.filter_cons, hb, h]
    omega
  · have hb : (d.ambulance_id == aid && !(d.status == "completed")) = false := by
      rcases not_and_or.1 h with h1 | h1
      · simp [h1]
      · have h2 : d.status = "completed" := not_not.1 h1
        simp [h2]
    simp [countActiveL, List.filter_cons, hb, h]

theorem countActiveL_decomp (k₁ k₂ : List Dispatch) (d : Dispatch) (aid : String) :
    countActiveL (k₁ ++ d :: k₂) aid
      = countActiveL k₁ aid
        + ((if d.ambulance_id = aid ∧ d.status ≠ "completed" then 1 else 0)
          + countActiveL k₂ aid) := by
  rw [countActiveL_append, countActiveL_cons]

theorem map_status_ne_available {st : String} (h : st ≠ "completed") :
    map_dispatch_status_to_ambulance st ≠ "available" := by
  simp only [map_dispatch_status_to_ambulance, pyGet]
  split_ifs with h1 h2 h3 h4 h5 <;> simp_all

theorem nodup_map_parts {β γ : Type} (g : β → γ) (l₁ l₂ : List β) (x : β)
    (hnd : ((l₁ ++ x :: l₂).map g).Nodup) :
    (∀ a ∈ l₁, g a ≠ g x) ∧ (∀ a ∈ l₂, g a ≠ g x) := by
  rw [List.map_append, List.map_cons, List.nodup_append] at hnd
  obtain ⟨h1, h2, hdisj⟩ := hnd
  constructor
  · intro a ha heq
    exact hdisj (List.mem_map_of_mem g ha)
      (by rw [heq]; exact List.mem_cons_self _ _)
  · intro a ha heq
    exact (List.nodup_cons.1 h2).1 (heq ▸ List.mem_map_of_mem g ha)

theorem Inv_initState : Inv initState := by
  refine ⟨?_, ?_, ?_⟩
  · intro aid
    simp [countActive, countActiveL, initState]
  · intro a ha hs
    simp [countActive, countActiveL, initState]
  · simp [initState, initFleet]

theorem dispatch_state_parts {α : Type} [LinearOrderedField α] [FloorRing α]
    (dist : GeoPoint → GeoPoint → α) (s : EmState) (now : ℚ)
    (dispatch_id call_id : String) {call : EmergencyCall} {m : Ambulance}
    (hc : s.emergency_calls.find? (fun c => c.id == call_id) = some call)
    (hsel : selectMinBy (fun a => dist call.location a.location)
      (if (s.active_ambulances.filter (fun a => a.status == "available")).isEmpty
        then s.active_ambulances
        else s.active_ambulances.filter (fun a => a.status == "available"))
      = some m) :
    ∃ dsp : Dispatch,
      ((dispatch_ambulance dist s now dispatch_id call_id).1).ambulance_dispatches
        = s.ambulance_dispatches ++ [dsp] ∧
      dsp.ambulance_id = m.id ∧ dsp.status = "dispatched" ∧
      ((dispatch_ambulance dist s now dispatch_id call_id).1).active_ambulances
        = updateFirst (fun a => a.id == m.id)
            (fun a => { a with status := "dispatched",
                               current_mission := some dispatch_id })
            s.active_ambulances := by
  simp only [dispatch_ambulance, hc, hsel]
  refine ⟨_, rfl, ?_, ?_, ?_⟩ <;> trivial

theorem dispatch_preserves_inv {α : Type} [LinearOrderedField α] [FloorRing α]
    (dist : GeoPoint → GeoPoint → α) (s : EmState) (now : ℚ)
    (dispatch_id call_id : String) (hInv : Inv s)
    (hav : s.active_ambulances.filter (fun a => a.status == "available") ≠ []) :
    Inv (dispatch_ambulance dist s now dispatch_id call_id).1 := by
  rcases hc : s.emergency_calls.find? (fun c => c.id == call_id) with _ | call
  · have hs : (dispatch_ambulance dist s now dispatch_id call_id).1 = s := by
      simp [dispatch_ambulance, hc]
    rw [hs]
    exact hInv
  · have hif : (if (s.active_ambulances.filter
        (fun a => a.status == "available")).isEmpty then s.active_ambulances
        else s.active_ambulances.filter (fun a => a.status == "available"))
        = s.active_ambulances.filter (fun a => a.status == "available") := by
      rw [if_neg]
      simpa [List.isEmpty_iff] using hav
    obtain ⟨m, hsel0, hmem0, -⟩ :=
      selectMinBy_spec (fun a => dist call.location a.location) hav
    have hsel : selectMinBy (fun a => dist call.location a.location)
        (if (s.active_ambulances.filter
          (fun a => a.status == "available")).isEmpty then s.active_ambulances
          else s.active_ambulances.filter (fun a => a.status == "available"))
        = some m := by
      rw [hif]
      exact hsel0
    obtain ⟨dsp, hD, hDaid, hDst, hF⟩ :=
      dispatch_state_parts dist s now dispatch_id call_id hc hsel
    have hmfleet : m ∈ s.active_ambulances := (List.mem_filter.1 hmem0).1
    have hmavail : m.status = "available" := by
      have hmf := (List.mem_filter.1 hmem0).2
      simpa using hmf
    have hcount0 : countActive s m.id = 0 := hInv.2.1 m hmfleet hmavail
    have hcnt : ∀ aid, countActive (dispatch_ambulance dist s now dispatch_id
        call_id).1 aid = countActive s aid + (if m.id = aid then 1 else 0) := by
      intro aid
      show countActiveL _ aid = _
      rw [hD, countActiveL_append, countActiveL_cons, hDaid, hDst]
      have hne : ("dispatched" : String) ≠ "completed" := by simp
      simp [countActive, countActiveL, hne]
    rcases hfa : s.active_ambulances.find? (fun a => a.id == m.id) with _ | x
    · exfalso
      have hfn := List.find?_eq_none.1 hfa m hmfleet
      simp at hfn
    · obtain ⟨l₁, l₂, hfl, hnp, hupd⟩ := updateFirst_decomp hfa
        (fun a => { a with status := "dispatched",
                           current_mission := some dispatch_id })
      have hxid : x.id = m.id := by
        have hpx := List.find?_some hfa
        simpa using hpx
      refine ⟨?_, ?_, ?_⟩
      · intro aid
        rw [hcnt aid]
        by_cases haid : m.id = aid
        · rw [← haid, hcount0]
          simp
        · rw [if_neg haid]
          have := hInv.1 aid
          omega
      · intro a ha hav2
        rw [hF, hupd] at ha
        have haidne : a.id ≠ m.id := by
          rcases List.mem_append.1 ha with h1 | h1
          · have hfa2 := hnp a h1
            simpa using hfa2
          · rcases List.mem_cons.1 h1 with rfl | h2
            · exfalso
              simp at hav2
            · have hnd := hInv.2.2
              rw [hfl] at hnd
              have hne := (nodup_map_parts (fun a => a.id) l₁ l₂ x hnd).2 a h2
              rw [hxid] at hne
              exact hne
        have hmemold : a ∈ s.active_ambulances := by
          rw [hfl]
          rcases List.mem_append.1 ha with h1 | h1
          · exact List.mem_append_left _ h1
          · rcases List.mem_cons.1 h1 with rfl | h2
            · exfalso
              simp at hav2
            · exact List.mem_append_right _ (List.mem_cons_of_mem _ h2)
        rw [hcnt, hInv.2.1 a hmemold hav2, if_neg (fun h => haidne h.symm)]
      · rw [hF, map_updateFirst (fun a => a.id == m.id)
          (fun a => { a with status := "dispatched", current_mission := some dispatch_id })
          (fun a => a.id) s.active_ambulances (fun a => rfl)]
        exact hInv.2.2

theorem Inv_ext {s t : EmState}
    (h1 : s.ambulance_dispatches = t.ambulance_dispatches)
    (h2 : s.active_ambulances = t.active_ambulances) (hI : Inv t) : Inv s := by
  obtain ⟨i1, i2, i3⟩ := hI
  refine ⟨?_, ?_, ?_⟩
  · intro aid
    show countActiveL _ aid ≤ 1
    rw [h1]
    exact i1 aid
  · intro a ha hav
    rw [h2] at ha
    show countActiveL _ a.id = 0
    rw [h1]
    exact i2 a ha hav
  · rw [h2]
    exact i3

theorem complete_state_parts (s : EmState) (now : ℚ)
    (dispatch_id outcome : String) {d : Dispatch}
    (hd : s.ambulance_dispatches.find? (fun x => x.id == dispatch_id) = some d) :
    ((complete_emergency_mission s now dispatch_id
        outcome).1).ambulance_dispatches
      = updateFirst (fun x => x.id == dispatch_id)
          (fun x => { x with status := "completed", completed_at := some now, outcome := some outcome })
          s.ambulance_dispatches ∧
    ((complete_emergency_mission s now dispatch_id outcome).1).active_ambulances
      = updateFirst (fun a => a.id == d.ambulance_id)
          (fun a => { a with status := "available", location := d.location_to, current_mission := none })
          s.active_ambulances := by
  simp only [complete_emergency_mission, hd]
  refine ⟨?_, ?_⟩ <;> first | rfl | trivial

theorem complete_preserves_inv (s : EmState) (now : ℚ)
    (dispatch_id outcome : String) (hInv : Inv s)
    (hnc : ∀ d ∈ s.ambulance_dispatches.find? (fun x => x.id == dispatch_id),
      d.status ≠ "completed") :
    Inv (complete_emergency_mission s now dispatch_id outcome).1 := by
  rcases hd : s.ambulance_dispatches.find? (fun x => x.id == dispatch_id)
    with _ | d
  · have hs : (complete_emergency_mission s now dispatch_id outcome).1 = s := by
      simp [complete_emergency_mission, hd]
    rw [hs]
    exact hInv
  · have hdact : d.status ≠ "completed" := hnc d hd
    obtain ⟨hDisp, hFleet⟩ := complete_state_parts s now dispatch_id outcome hd
    obtain ⟨k₁, k₂, hkl, hknp, hkupd⟩ := updateFirst_decomp hd
      (fun x => { x with status := "completed", completed_at := some now, outcome := some outcome })
    have hcntPost : ∀ aid,
        countActive (complete_emergency_mission s now dispatch_id outcome).1 aid
          = countActiveL k₁ aid + countActiveL k₂ aid := by
      intro aid
      show countActiveL _ aid = _
      rw [hDisp, hkupd, countActiveL_decomp]
      simp
    have hcntS : ∀ aid, countActive s aid
        = countActiveL k₁ aid
          + ((if d.ambulance_id = aid ∧ d.status ≠ "completed" then 1 else 0)
            + countActiveL k₂ aid) := by
      intro aid
      show countActiveL _ aid = _
      rw [hkl, countActiveL_decomp]
    have hle : ∀ aid,
        countActive (complete_emergency_mission s now dispatch_id outcome).1 aid
          ≤ countActive s aid := by
      intro aid
      rw [hcntPost, hcntS]
      split_ifs <;> omega
    have hzero :
        countActive (complete_emergency_mission s now dispatch_id outcome).1
          d.ambulance_id = 0 := by
      have h1 := hInv.1 d.ambulance_id
      rw [hcntS d.ambulance_id, if_pos ⟨rfl, hdact⟩] at h1
      rw [hcntPost]
      omega
    refine ⟨?_, ?_, ?_⟩
    · intro aid
      exact (hle aid).trans (hInv.1 aid)
    · rcases hfa : s.active_ambulances.find? (fun a => a.id == d.ambulance_id)
        with _ | x
      · intro a ha hav2
        rw [hFleet, updateFirst_of_find_none hfa] at ha
        have h0 := hInv.2.1 a ha hav2
        have h5 := hle a.id
        omega
      · obtain ⟨l₁, l₂, hfl, hnp, hupd⟩ := updateFirst_decomp hfa
          (fun a => { a with status := "available", location := d.location_to, current_mission := none })
        intro a ha hav2
        rw [hFleet, hupd] at ha
        rcases List.mem_append.1 ha with h1 | h1
        · have hmemold : a ∈ s.active_ambulances := by
            rw [hfl]
            exact List.mem_append_left _ h1
          have h0 := hInv.2.1 a hmemold hav2
          have h5 := hle a.id
          omega
        · rcases List.mem_cons.1 h1 with rfl | h2
          · have hxid : x.id = d.ambulance_id := by
              have hpx := List.find?_some hfa
              simpa using hpx
            have h5 : ({ x with status := "available", location := d.location_to, current_mission := none } : Ambulance).id
                = d.ambulance_id := hxid
            rw [h5]
            exact hzero
          · have hmemold : a ∈ s.active_ambulances := by
              rw [hfl]
              exact List.mem_append_right _ (List.mem_cons_of_mem _ h2)
            have h0 := hInv.2.1 a hmemold hav2
            have h5 := hle a.id
            omega
    · rw [hFleet, map_updateFirst (fun a => a.id == d.ambulance_id)
        (fun a => { a with status := "available", location := d.location_to, current_mission := none })
        (fun a => a.id) s.active_ambulances (fun a => rfl)]
      exact hInv.2.2

theorem update_state_parts (s : EmState) (now : ℚ)
    (dispatch_id status : String) (cu : Option ClinicalUpdate) {d : Dispatch}
    (hd : s.ambulance_dispatches.find? (fun x => x.id == dispatch_id) = some d) :
    ((update_ambulance_status s now dispatch_id status
        cu).1).ambulance_dispatches
      = updateFirst (fun x => x.id == dispatch_id)
          (fun x => { x with status := status, updates := x.updates ++ [{ timestamp := now, status := status, clinical_update := cu }] })
          s.ambulance_dispatches ∧
    ((update_ambulance_status s now dispatch_id status cu).1).active_ambulances
      = updateFirst (fun a => a.id == d.ambulance_id)
          (fun a => { a with status := map_dispatch_status_to_ambulance status })
          s.active_ambulances := by
  simp only [update_ambulance_status, hd]
  refine ⟨?_, ?_⟩ <;> first | rfl | trivial

theorem update_preserves_inv (s : EmState) (now : ℚ)
    (dispatch_id status : String) (cu : Option ClinicalUpdate) (hInv : Inv s)
    (hnc : ∀ d ∈ s.ambulance_dispatches.find? (fun x => x.id == dispatch_id),
      d.status ≠ "completed") :
    Inv (update_ambulance_status s now dispatch_id status cu).1 := by
  rcases hd : s.ambulance_dispatches.find? (fun x => x.id == dispatch_id)
    with _ | d
  · have hs : (update_ambulance_status s now dispatch_id status cu).1 = s := by
      simp [update_ambulance_status, hd]
    rw [hs]
    exact hInv
  · have hdact : d.status ≠ "completed" := hnc d hd
    obtain ⟨hDisp, hFleet⟩ := update_state_parts s now dispatch_id status cu hd
    obtain ⟨k₁, k₂, hkl, hknp, hkupd⟩ := updateFirst_decomp hd
      (fun x => { x with status := status, updates := x.updates ++ [{ timestamp := now, status := status, clinical_update := cu }] })
    have hcntPost : ∀ aid,
        countActive (update_ambulance_status s now dispatch_id status cu).1 aid
          = countActiveL k₁ aid
            + ((if d.ambulance_id = aid ∧ status ≠ "completed" then 1 else 0)
              + countActiveL k₂ aid) := by
      intro aid
      show countActiveL _ aid = _
      rw [hDisp, hkupd, countActiveL_decomp]
    have hcntS : ∀ aid, countActive s aid
        = countActiveL k₁ aid
          + ((if d.ambulance_id = aid ∧ d.status ≠ "completed" then 1 else 0)
            + countActiveL k₂ aid) := by
      intro aid
      show countActiveL _ aid = _
      rw [hkl, countActiveL_decomp]
    have hle : ∀ aid,
        countActive (update_ambulance_status s now dispatch_id status cu).1 aid
          ≤ countActive s aid := by
      intro aid
      rw [hcntPost, hcntS]
      have hco : (d.ambulance_id = aid ∧ d.status ≠ "completed")
          ↔ (d.ambulance_id = aid) := by simp [hdact]
      simp only [hco]
      split_ifs with h1 h2 <;> simp_all
    have hnodup :
        (((update_ambulance_status s now dispatch_id status
          cu).1).active_ambulances.map (fun a => a.id)).Nodup := by
      rw [hFleet, map_updateFirst (fun a => a.id == d.ambulance_id)
        (fun a => { a with status := map_dispatch_status_to_ambulance status })
        (fun a => a.id) s.active_ambulances (fun a => rfl)]
      exact hInv.2.2
    by_cases hst : status = "completed"
    · subst hst
      have hzero :
          countActive (update_ambulance_status s now dispatch_id "completed" cu).1
            d.ambulance_id = 0 := by
        have h1 := hInv.1 d.ambulance_id
        rw [hcntS d.ambulance_id, if_pos ⟨rfl, hdact⟩] at h1
        rw [hcntPost]
        simp only [ne_eq, not_true_eq_false, and_false, if_false]
        omega
      have hmap : map_dispatch_status_to_ambulance "completed" = "available" := by
        simp [map_dispatch_status_to_ambulance, pyGet]
      refine ⟨?_, ?_, hnodup⟩
      · intro aid
        exact (hle aid).trans (hInv.1 aid)
      · rcases hfa : s.active_ambulances.find? (fun a => a.id == d.ambulance_id)
          with _ | x
        · intro a ha hav2
          rw [hFleet, updateFirst_of_find_none hfa] at ha
          have h0 := hInv.2.1 a ha hav2
          have h5 := hle a.id
          omega
        · obtain ⟨l₁, l₂, hfl, hnp, hupd⟩ := updateFirst_decomp hfa
            (fun a => { a with status := map_dispatch_status_to_ambulance "completed" })
          intro a ha hav2
          rw [hFleet, hupd] at ha
          rcases List.mem_append.1 ha with h1 | h1
          · have hmemold : a ∈ s.active_ambulances := by
              rw [hfl]
              exact List.mem_append_left _ h1
            have h0 := hInv.2.1 a hmemold hav2
            have h5 := hle a.id
            omega
          · rcases List.mem_cons.1 h1 with rfl | h2
            · have hxid : x.id = d.ambulance_id := by
                have hpx := List.find?_some hfa
                simpa using hpx
              have h5 : ({ x with status := map_dispatch_status_to_ambulance "completed" } : Ambulance).id
                  = d.ambulance_id := hxid
              rw [h5]
              exact hzero
            · have hmemold : a ∈ s.active_ambulances := by
                rw [hfl]
                exact List.mem_append_right _ (List.mem_cons_of_mem _ h2)
              have h0 := hInv.2.1 a hmemold hav2
              have h5 := hle a.id
              omega
    · have hcnteq : ∀ aid,
          countActive (update_ambulance_status s now dispatch_id status cu).1 aid
            = countActive s aid := by
        intro aid
        rw [hcntPost, hcntS]
        have hco : (d.ambulance_id = aid ∧ d.status ≠ "completed")
            ↔ (d.ambulance_id = aid ∧ status ≠ "completed") := by
          simp [hdact, hst]
        simp only [hco]
      refine ⟨?_, ?_, hnodup⟩
      · intro aid
        rw [hcnteq aid]
        exact hInv.1 aid
      · rcases hfa : s.active_ambulances.find? (fun a => a.id == d.ambulance_id)
          with _ | x
        · intro a ha hav2
          rw [hFleet, updateFirst_of_find_none hfa] at ha
          rw [hcnteq a.id]
          exact hInv.2.1 a ha hav2
        · obtain ⟨l₁, l₂, hfl, hnp, hupd⟩ := updateFirst_decomp hfa
            (fun a => { a with status := map_dispatch_status_to_ambulance status })
          intro a ha hav2
          rw [hFleet, hupd] at ha
          rcases List.mem_append.1 ha with h1 | h1
          · have hmemold : a ∈ s.active_ambulances := by
              rw [hfl]
              exact List.mem_append_left _ h1
            rw [hcnteq a.id]
            exact hInv.2.1 a hmemold hav2
          · rcases List.mem_cons.1 h1 with rfl | h2
            · have hbad : map_dispatch_status_to_ambulance status = "available" :=
                hav2
              exact absurd hbad (map_status_ne_available hst)
            · have hmemold : a ∈ s.active_ambulances := by
                rw [hfl]
                exact List.mem_append_right _ (List.mem_cons_of_mem _ h2)
              rw [hcnteq a.id]
              exact hInv.2.1 a hmemold hav2

theorem record_auto_dispatch_inv (call_id : String)
    (res : EmState × Except String Dispatch) (h : Inv res.1) :
    Inv (record_auto_dispatch call_id res).1 := by
  rcases res with ⟨s₂, r⟩
  rcases r with e | dsp
  · exact h
  · exact Inv_ext rfl rfl h

theorem initiate_preserves_inv {α : Type} [LinearOrderedField α] [FloorRing α]
    (dist : GeoPoint → GeoPoint → α) (s : EmState) (now : ℚ)
    (call_id dispatch_id patient_id : String) (location : GeoPoint)
    (emergency_type triage_level : String)
    (patient_data : Option PatientSnapshot) (hInv : Inv s)
    (hav : triage_level = "CODICE_ROSSO" →
      s.active_ambulances.filter (fun a => a.status == "available") ≠ []) :
    Inv (initiate_emergency_call dist s now call_id dispatch_id patient_id
      location emergency_type triage_level patient_data).1 := by
  by_cases ht : triage_level = "CODICE_ROSSO"
  · simp only [initiate_emergency_call, if_pos ht]
    apply record_auto_dispatch_inv
    apply dispatch_preserves_inv
    · exact Inv_ext rfl rfl hInv
    · exact hav ht
  · simp only [initiate_emergency_call, if_neg ht]
    exact Inv_ext rfl rfl hInv

theorem greach_inv {α : Type} [LinearOrderedField α] [FloorRing α]
    (dist : GeoPoint → GeoPoint → α) (s : EmState) (h : GReach dist s) :
    Inv s := by
  induction h with
  | init => exact Inv_initState
  | initiate s now call_id dispatch_id patient_id location emergency_type
      triage_level patient_data h hav ih =>
    exact initiate_preserves_inv dist s now call_id dispatch_id patient_id
      location emergency_type triage_level patient_data ih hav
  | dispatch s now dispatch_id call_id h hav ih =>
    exact dispatch_preserves_inv dist s now dispatch_id call_id ih hav
  | update s now dispatch_id status cu h hnc ih =>
    exact update_preserves_inv s now dispatch_id status cu ih hnc
  | complete s now dispatch_id outcome h hnc ih =>
    exact complete_preserves_inv s now dispatch_id outcome ih hnc

/-- C5 (amended).  The unguarded system does NOT satisfy the at-most-one
active dispatch invariant (see the counterexample
`double_booking_reachable`: `dispatch_ambulance` falls back to "any
ambulance" when none is available and double-books).  The amended claim:
in every state reachable from the initial state by operations in which
every dispatch (including a `CODICE_ROSSO` auto-dispatch) happens while
some ambulance is still available, and no status update or completion
targets an already-completed dispatch, each ambulance id is referenced by
at most one non-completed dispatch, every available fleet member is
referenced by none, and fleet ids stay pairwise distinct. -/
theorem single_active_dispatch_amended {α : Type} [LinearOrderedField α]
    [FloorRing α] (dist : GeoPoint → GeoPoint → α) (s : EmState)
    (h : GReach dist s) :
    (∀ aid, countActive s aid ≤ 1) ∧
    (∀ a ∈ s.active_ambulances, a.status = "available" →
      countActive s a.id = 0) ∧
    (s.active_ambulances.map (fun a => a.id)).Nodup :=
  greach_inv dist s h

theorem single_active_dispatch_amended_check :
    GReach sqDist ceS2 ∧ countActive ceS2 "AMB-001" ≤ 1 := by
  have h0 : GReach sqDist ceS1 :=
    GReach.initiate initState 0 "C1" "DX" "P1" { lat := 43.61, lon := 13.52 }
      "OTHER" "CODICE_VERDE" none GReach.init (fun hh => absurd hh (by simp))
  have hav₁ : ceS1.active_ambulances.filter
      (fun a => a.status == "available") ≠ [] := by
    rw [ceS1_eq]
    simp [ceAmb1, ceAmb2, ceAmb3]
  have hg : GReach sqDist ceS2 := GReach.dispatch ceS1 1 "D1" "C1" h0 hav₁
  exact ⟨hg, (single_active_dispatch_amended sqDist ceS2 hg).1 "AMB-001"⟩

end Emergency
